import Mathlib

set_option autoImplicit false

/-!
Verification development for the Backlog webhook bot (Python sources under
src/backlog_bot).  The Python modules are shallowly embedded: JSON payloads
become an inductive `Json` type, dict/str idioms (truthiness, `or`
defaulting, slicing, `str.strip`) are modelled by explicit helpers, and the
Lambda handler becomes a pure function from an event, settings and external
collaborators to a response plus a trace of external calls.
-/

namespace BacklogBot

/-- JSON values as delivered in webhook payloads.  Numbers are modelled as
integers: every numeric field the handler inspects (comment ids, user ids,
wiki ids) is an integer in the Backlog webhook schema. -/
inductive Json where
  | null : Json
  | bool (b : Bool) : Json
  | num (n : Int) : Json
  | str (s : String) : Json
  | arr (items : List Json) : Json
  | obj (fields : List (String × Json)) : Json
  deriving Inhabited

namespace Json

/-- Lookup of a key among a dict's fields; the first binding wins. -/
def lookupField : List (String × Json) → String → Option Json
  | [], _ => none
  | (k, v) :: rest, key => if k = key then some v else lookupField rest key

/-- Python d.get(k, default) on a dict value. -/
def lookupD (fs : List (String × Json)) (k : String) (d : Json) : Json :=
  match lookupField fs k with
  | some v => v
  | none => d

/-- Python d.get(k) (default None); non-dict receivers give null, callers
that would raise in Python check dict-ness separately. -/
def get : Json → String → Json
  | obj fs, k => lookupD fs k null
  | _, _ => null

/-- Python truthiness of a JSON value. -/
def truthy : Json → Bool
  | null => false
  | bool b => b
  | num n => n != 0
  | str s => s != ""
  | arr xs => !xs.isEmpty
  | obj fs => !fs.isEmpty

/-- Whether the value is a dict (Python isinstance(x, dict)). -/
def isObj : Json → Bool
  | obj _ => true
  | _ => false

/-- Whether the value is JSON null (Python None). -/
def isNull : Json → Bool
  | null => true
  | _ => false

end Json

/-- Python `a or b` on JSON values. -/
def jOr (a b : Json) : Json := if a.truthy then a else b

/-- Whitespace characters of Python str.isspace — the exact set str.strip,
str.split and int() treat as whitespace, taken from CPython's
classification of every codepoint: the ASCII controls 09-0D, the
separator controls 1C-1F, the space, NEL 85, NBSP A0, the Ogham space
1680, the typographic spaces 2000-200A, the line and paragraph separators
2028-2029, NNBSP 202F, MMSP 205F and the ideographic space 3000. -/
def isPySpace (c : Char) : Bool :=
  (0x9 ≤ c.toNat && c.toNat ≤ 0xD) || (0x1C ≤ c.toNat && c.toNat ≤ 0x20) ||
  c.toNat = 0x85 || c.toNat = 0xA0 || c.toNat = 0x1680 ||
  (0x2000 ≤ c.toNat && c.toNat ≤ 0x200A) ||
  c.toNat = 0x2028 || c.toNat = 0x2029 || c.toNat = 0x202F ||
  c.toNat = 0x205F || c.toNat = 0x3000

/-- Strip leading and trailing whitespace from a character list. -/
def stripChars (l : List Char) : List Char :=
  ((l.dropWhile isPySpace).reverse.dropWhile isPySpace).reverse

/-- Python str.strip(). -/
def pyStrip (s : String) : String := ⟨stripChars s.data⟩

/-- Python str.lower() (ASCII; the inputs the handler lowers are ASCII). -/
def pyLower (s : String) : String := ⟨s.data.map Char.toLower⟩

/-- Python whitespace split str.split() on a character list: maximal runs of
non-whitespace characters, empties discarded. -/
def splitWsAux : List Char → List Char → List (List Char)
  | [], acc => if acc.isEmpty then [] else [acc.reverse]
  | c :: cs, acc =>
    if isPySpace c then
      if acc.isEmpty then splitWsAux cs [] else acc.reverse :: splitWsAux cs []
    else splitWsAux cs (c :: acc)

/-- Python str.split() (whitespace split). -/
def splitWs (s : String) : List String :=
  (splitWsAux s.data []).map fun l => ⟨l⟩

/-- Value of a decimal digit string. -/
def digitsVal (ds : List Char) : Nat :=
  ds.foldl (fun a c => a * 10 + (c.toNat - '0'.toNat)) 0

/-- Python int(s) on a string: optional sign, decimal digits, surrounding
whitespace allowed; anything else raises (none). -/
def pyIntOfString (s : String) : Option Int :=
  match stripChars s.data with
  | [] => none
  | '-' :: ds => if !ds.isEmpty && ds.all Char.isDigit then some (-(digitsVal ds : Int)) else none
  | '+' :: ds => if !ds.isEmpty && ds.all Char.isDigit then some (digitsVal ds : Int) else none
  | ds => if ds.all Char.isDigit then some (digitsVal ds : Int) else none

/-- Python str() of a JSON value as interpolated by f-strings.  Container
rendering is structural shorthand, not Python repr: no handler branch or
claim-relevant path renders a container. -/
def pyStr : Json → String
  | .null => "None"
  | .bool true => "True"
  | .bool false => "False"
  | .num n => toString n
  | .str s => s
  | .arr _ => "[...]"
  | .obj _ => "..."

/-- Python str.isdigit() for the ASCII strings produced by pyStr. -/
def pyIsDigit (s : String) : Bool :=
  s != "" && s.data.all Char.isDigit

/-- Python int(x) on a JSON value: ints pass through, bools become 0/1,
strings parse as decimal; other values raise (none). -/
def pyInt : Json → Option Int
  | .num n => some n
  | .bool b => some (if b then 1 else 0)
  | .str s => pyIntOfString s
  | _ => none

/-- Python sequence slicing s[:k] for a possibly negative bound k. -/
def pyTakeChars (l : List Char) (k : Int) : List Char :=
  if 0 ≤ k then l.take k.toNat else l.take (l.length - (-k).toNat)

/-! ## commands.py -/

/-- Result of parse_command, a tagged view of the source's small dicts:
summary and update stand for the dicts with cmd tags "summary" and
"update", ask carries the question, and other carries any remaining
lowercased matched tag — reachable only through the long-s IGNORECASE
equivalence (e.g. a matched "ſummary"), a tag the handler's command
dispatch later fails on. -/
inductive Cmd where
  | summary : Cmd
  | update : Cmd
  | ask (question : String) : Cmd
  | other (cmd : String) : Cmd
  deriving DecidableEq

/-- The cmd tag string stored in the source's result dict. -/
def cmdKind : Cmd → String
  | .summary => "summary"
  | .update => "update"
  | .ask _ => "ask"
  | .other s => s

/-- The non-ASCII codepoint ranges CPython's regex engine accepts for \w
(Unicode letters, digits and numeric characters), generated from CPython
3.11's classification of every codepoint; together with the ASCII
alphanumerics and the underscore these are the word characters that
define the \b boundary in CMD_RE. -/
def uniWordRanges : List (Nat × Nat) := [
  (0xAA, 0xAA), (0xB2, 0xB3), (0xB5, 0xB5), (0xB9, 0xBA),
  (0xBC, 0xBE), (0xC0, 0xD6), (0xD8, 0xF6), (0xF8, 0x2C1),
  (0x2C6, 0x2D1), (0x2E0, 0x2E4), (0x2EC, 0x2EC), (0x2EE, 0x2EE),
  (0x370, 0x374), (0x376, 0x377), (0x37A, 0x37D), (0x37F, 0x37F),
  (0x386, 0x386), (0x388, 0x38A), (0x38C, 0x38C), (0x38E, 0x3A1),
  (0x3A3, 0x3F5), (0x3F7, 0x481), (0x48A, 0x52F), (0x531, 0x556),
  (0x559, 0x559), (0x560, 0x588), (0x5D0, 0x5EA), (0x5EF, 0x5F2),
  (0x620, 0x64A), (0x660, 0x669), (0x66E, 0x66F), (0x671, 0x6D3),
  (0x6D5, 0x6D5), (0x6E5, 0x6E6), (0x6EE, 0x6FC), (0x6FF, 0x6FF),
  (0x710, 0x710), (0x712, 0x72F), (0x74D, 0x7A5), (0x7B1, 0x7B1),
  (0x7C0, 0x7EA), (0x7F4, 0x7F5), (0x7FA, 0x7FA), (0x800, 0x815),
  (0x81A, 0x81A), (0x824, 0x824), (0x828, 0x828), (0x840, 0x858),
  (0x860, 0x86A), (0x870, 0x887), (0x889, 0x88E), (0x8A0, 0x8C9),
  (0x904, 0x939), (0x93D, 0x93D), (0x950, 0x950), (0x958, 0x961),
  (0x966, 0x96F), (0x971, 0x980), (0x985, 0x98C), (0x98F, 0x990),
  (0x993, 0x9A8), (0x9AA, 0x9B0), (0x9B2, 0x9B2), (0x9B6, 0x9B9),
  (0x9BD, 0x9BD), (0x9CE, 0x9CE), (0x9DC, 0x9DD), (0x9DF, 0x9E1),
  (0x9E6, 0x9F1), (0x9F4, 0x9F9), (0x9FC, 0x9FC), (0xA05, 0xA0A),
  (0xA0F, 0xA10), (0xA13, 0xA28), (0xA2A, 0xA30), (0xA32, 0xA33),
  (0xA35, 0xA36), (0xA38, 0xA39), (0xA59, 0xA5C), (0xA5E, 0xA5E),
  (0xA66, 0xA6F), (0xA72, 0xA74), (0xA85, 0xA8D), (0xA8F, 0xA91),
  (0xA93, 0xAA8), (0xAAA, 0xAB0), (0xAB2, 0xAB3), (0xAB5, 0xAB9),
  (0xABD, 0xABD), (0xAD0, 0xAD0), (0xAE0, 0xAE1), (0xAE6, 0xAEF),
  (0xAF9, 0xAF9), (0xB05, 0xB0C), (0xB0F, 0xB10), (0xB13, 0xB28),
  (0xB2A, 0xB30), (0xB32, 0xB33), (0xB35, 0xB39), (0xB3D, 0xB3D),
  (0xB5C, 0xB5D), (0xB5F, 0xB61), (0xB66, 0xB6F), (0xB71, 0xB77),
  (0xB83, 0xB83), (0xB85, 0xB8A), (0xB8E, 0xB90), (0xB92, 0xB95),
  (0xB99, 0xB9A), (0xB9C, 0xB9C), (0xB9E, 0xB9F), (0xBA3, 0xBA4),
  (0xBA8, 0xBAA), (0xBAE, 0xBB9), (0xBD0, 0xBD0), (0xBE6, 0xBF2),
  (0xC05, 0xC0C), (0xC0E, 0xC10), (0xC12, 0xC28), (0xC2A, 0xC39),
  (0xC3D, 0xC3D), (0xC58, 0xC5A), (0xC5D, 0xC5D), (0xC60, 0xC61),
  (0xC66, 0xC6F), (0xC78, 0xC7E), (0xC80, 0xC80), (0xC85, 0xC8C),
  (0xC8E, 0xC90), (0xC92, 0xCA8), (0xCAA, 0xCB3), (0xCB5, 0xCB9),
  (0xCBD, 0xCBD), (0xCDD, 0xCDE), (0xCE0, 0xCE1), (0xCE6, 0xCEF),
  (0xCF1, 0xCF2), (0xD04, 0xD0C), (0xD0E, 0xD10), (0xD12, 0xD3A),
  (0xD3D, 0xD3D), (0xD4E, 0xD4E), (0xD54, 0xD56), (0xD58, 0xD61),
  (0xD66, 0xD78), (0xD7A, 0xD7F), (0xD85, 0xD96), (0xD9A, 0xDB1),
  (0xDB3, 0xDBB), (0xDBD, 0xDBD), (0xDC0, 0xDC6), (0xDE6, 0xDEF),
  (0xE01, 0xE30), (0xE32, 0xE33), (0xE40, 0xE46), (0xE50, 0xE59),
  (0xE81, 0xE82), (0xE84, 0xE84), (0xE86, 0xE8A), (0xE8C, 0xEA3),
  (0xEA5, 0xEA5), (0xEA7, 0xEB0), (0xEB2, 0xEB3), (0xEBD, 0xEBD),
  (0xEC0, 0xEC4), (0xEC6, 0xEC6), (0xED0, 0xED9), (0xEDC, 0xEDF),
  (0xF00, 0xF00), (0xF20, 0xF33), (0xF40, 0xF47), (0xF49, 0xF6C),
  (0xF88, 0xF8C), (0x1000, 0x102A), (0x103F, 0x1049), (0x1050, 0x1055),
  (0x105A, 0x105D), (0x1061, 0x1061), (0x1065, 0x1066), (0x106E, 0x1070),
  (0x1075, 0x1081), (0x108E, 0x108E), (0x1090, 0x1099), (0x10A0, 0x10C5),
  (0x10C7, 0x10C7), (0x10CD, 0x10CD), (0x10D0, 0x10FA), (0x10FC, 0x1248),
  (0x124A, 0x124D), (0x1250, 0x1256), (0x1258, 0x1258), (0x125A, 0x125D),
  (0x1260, 0x1288), (0x128A, 0x128D), (0x1290, 0x12B0), (0x12B2, 0x12B5),
  (0x12B8, 0x12BE), (0x12C0, 0x12C0), (0x12C2, 0x12C5), (0x12C8, 0x12D6),
  (0x12D8, 0x1310), (0x1312, 0x1315), (0x1318, 0x135A), (0x1369, 0x137C),
  (0x1380, 0x138F), (0x13A0, 0x13F5), (0x13F8, 0x13FD), (0x1401, 0x166C),
  (0x166F, 0x167F), (0x1681, 0x169A), (0x16A0, 0x16EA), (0x16EE, 0x16F8),
  (0x1700, 0x1711), (0x171F, 0x1731), (0x1740, 0x1751), (0x1760, 0x176C),
  (0x176E, 0x1770), (0x1780, 0x17B3), (0x17D7, 0x17D7), (0x17DC, 0x17DC),
  (0x17E0, 0x17E9), (0x17F0, 0x17F9), (0x1810, 0x1819), (0x1820, 0x1878),
  (0x1880, 0x1884), (0x1887, 0x18A8), (0x18AA, 0x18AA), (0x18B0, 0x18F5),
  (0x1900, 0x191E), (0x1946, 0x196D), (0x1970, 0x1974), (0x1980, 0x19AB),
  (0x19B0, 0x19C9), (0x19D0, 0x19DA), (0x1A00, 0x1A16), (0x1A20, 0x1A54),
  (0x1A80, 0x1A89), (0x1A90, 0x1A99), (0x1AA7, 0x1AA7), (0x1B05, 0x1B33),
  (0x1B45, 0x1B4C), (0x1B50, 0x1B59), (0x1B83, 0x1BA0), (0x1BAE, 0x1BE5),
  (0x1C00, 0x1C23), (0x1C40, 0x1C49), (0x1C4D, 0x1C7D), (0x1C80, 0x1C88),
  (0x1C90, 0x1CBA), (0x1CBD, 0x1CBF), (0x1CE9, 0x1CEC), (0x1CEE, 0x1CF3),
  (0x1CF5, 0x1CF6), (0x1CFA, 0x1CFA), (0x1D00, 0x1DBF), (0x1E00, 0x1F15),
  (0x1F18, 0x1F1D), (0x1F20, 0x1F45), (0x1F48, 0x1F4D), (0x1F50, 0x1F57),
  (0x1F59, 0x1F59), (0x1F5B, 0x1F5B), (0x1F5D, 0x1F5D), (0x1F5F, 0x1F7D),
  (0x1F80, 0x1FB4), (0x1FB6, 0x1FBC), (0x1FBE, 0x1FBE), (0x1FC2, 0x1FC4),
  (0x1FC6, 0x1FCC), (0x1FD0, 0x1FD3), (0x1FD6, 0x1FDB), (0x1FE0, 0x1FEC),
  (0x1FF2, 0x1FF4), (0x1FF6, 0x1FFC), (0x2070, 0x2071), (0x2074, 0x2079),
  (0x207F, 0x2089), (0x2090, 0x209C), (0x2102, 0x2102), (0x2107, 0x2107),
  (0x210A, 0x2113), (0x2115, 0x2115), (0x2119, 0x211D), (0x2124, 0x2124),
  (0x2126, 0x2126), (0x2128, 0x2128), (0x212A, 0x212D), (0x212F, 0x2139),
  (0x213C, 0x213F), (0x2145, 0x2149), (0x214E, 0x214E), (0x2150, 0x2189),
  (0x2460, 0x249B), (0x24EA, 0x24FF), (0x2776, 0x2793), (0x2C00, 0x2CE4),
  (0x2CEB, 0x2CEE), (0x2CF2, 0x2CF3), (0x2CFD, 0x2CFD), (0x2D00, 0x2D25),
  (0x2D27, 0x2D27), (0x2D2D, 0x2D2D), (0x2D30, 0x2D67), (0x2D6F, 0x2D6F),
  (0x2D80, 0x2D96), (0x2DA0, 0x2DA6), (0x2DA8, 0x2DAE), (0x2DB0, 0x2DB6),
  (0x2DB8, 0x2DBE), (0x2DC0, 0x2DC6), (0x2DC8, 0x2DCE), (0x2DD0, 0x2DD6),
  (0x2DD8, 0x2DDE), (0x2E2F, 0x2E2F), (0x3005, 0x3007), (0x3021, 0x3029),
  (0x3031, 0x3035), (0x3038, 0x303C), (0x3041, 0x3096), (0x309D, 0x309F),
  (0x30A1, 0x30FA), (0x30FC, 0x30FF), (0x3105, 0x312F), (0x3131, 0x318E),
  (0x3192, 0x3195), (0x31A0, 0x31BF), (0x31F0, 0x31FF), (0x3220, 0x3229),
  (0x3248, 0x324F), (0x3251, 0x325F), (0x3280, 0x3289), (0x32B1, 0x32BF),
  (0x3400, 0x4DBF), (0x4E00, 0xA48C), (0xA4D0, 0xA4FD), (0xA500, 0xA60C),
  (0xA610, 0xA62B), (0xA640, 0xA66E), (0xA67F, 0xA69D), (0xA6A0, 0xA6EF),
  (0xA717, 0xA71F), (0xA722, 0xA788), (0xA78B, 0xA7CA), (0xA7D0, 0xA7D1),
  (0xA7D3, 0xA7D3), (0xA7D5, 0xA7D9), (0xA7F2, 0xA801), (0xA803, 0xA805),
  (0xA807, 0xA80A), (0xA80C, 0xA822), (0xA830, 0xA835), (0xA840, 0xA873),
  (0xA882, 0xA8B3), (0xA8D0, 0xA8D9), (0xA8F2, 0xA8F7), (0xA8FB, 0xA8FB),
  (0xA8FD, 0xA8FE), (0xA900, 0xA925), (0xA930, 0xA946), (0xA960, 0xA97C),
  (0xA984, 0xA9B2), (0xA9CF, 0xA9D9), (0xA9E0, 0xA9E4), (0xA9E6, 0xA9FE),
  (0xAA00, 0xAA28), (0xAA40, 0xAA42), (0xAA44, 0xAA4B), (0xAA50, 0xAA59),
  (0xAA60, 0xAA76), (0xAA7A, 0xAA7A), (0xAA7E, 0xAAAF), (0xAAB1, 0xAAB1),
  (0xAAB5, 0xAAB6), (0xAAB9, 0xAABD), (0xAAC0, 0xAAC0), (0xAAC2, 0xAAC2),
  (0xAADB, 0xAADD), (0xAAE0, 0xAAEA), (0xAAF2, 0xAAF4), (0xAB01, 0xAB06),
  (0xAB09, 0xAB0E), (0xAB11, 0xAB16), (0xAB20, 0xAB26), (0xAB28, 0xAB2E),
  (0xAB30, 0xAB5A), (0xAB5C, 0xAB69), (0xAB70, 0xABE2), (0xABF0, 0xABF9),
  (0xAC00, 0xD7A3), (0xD7B0, 0xD7C6), (0xD7CB, 0xD7FB), (0xF900, 0xFA6D),
  (0xFA70, 0xFAD9), (0xFB00, 0xFB06), (0xFB13, 0xFB17), (0xFB1D, 0xFB1D),
  (0xFB1F, 0xFB28), (0xFB2A, 0xFB36), (0xFB38, 0xFB3C), (0xFB3E, 0xFB3E),
  (0xFB40, 0xFB41), (0xFB43, 0xFB44), (0xFB46, 0xFBB1), (0xFBD3, 0xFD3D),
  (0xFD50, 0xFD8F), (0xFD92, 0xFDC7), (0xFDF0, 0xFDFB), (0xFE70, 0xFE74),
  (0xFE76, 0xFEFC), (0xFF10, 0xFF19), (0xFF21, 0xFF3A), (0xFF41, 0xFF5A),
  (0xFF66, 0xFFBE), (0xFFC2, 0xFFC7), (0xFFCA, 0xFFCF), (0xFFD2, 0xFFD7),
  (0xFFDA, 0xFFDC), (0x10000, 0x1000B), (0x1000D, 0x10026), (0x10028, 0x1003A),
  (0x1003C, 0x1003D), (0x1003F, 0x1004D), (0x10050, 0x1005D), (0x10080, 0x100FA),
  (0x10107, 0x10133), (0x10140, 0x10178), (0x1018A, 0x1018B), (0x10280, 0x1029C),
  (0x102A0, 0x102D0), (0x102E1, 0x102FB), (0x10300, 0x10323), (0x1032D, 0x1034A),
  (0x10350, 0x10375), (0x10380, 0x1039D), (0x103A0, 0x103C3), (0x103C8, 0x103CF),
  (0x103D1, 0x103D5), (0x10400, 0x1049D), (0x104A0, 0x104A9), (0x104B0, 0x104D3),
  (0x104D8, 0x104FB), (0x10500, 0x10527), (0x10530, 0x10563), (0x10570, 0x1057A),
  (0x1057C, 0x1058A), (0x1058C, 0x10592), (0x10594, 0x10595), (0x10597, 0x105A1),
  (0x105A3, 0x105B1), (0x105B3, 0x105B9), (0x105BB, 0x105BC), (0x10600, 0x10736),
  (0x10740, 0x10755), (0x10760, 0x10767), (0x10780, 0x10785), (0x10787, 0x107B0),
  (0x107B2, 0x107BA), (0x10800, 0x10805), (0x10808, 0x10808), (0x1080A, 0x10835),
  (0x10837, 0x10838), (0x1083C, 0x1083C), (0x1083F, 0x10855), (0x10858, 0x10876),
  (0x10879, 0x1089E), (0x108A7, 0x108AF), (0x108E0, 0x108F2), (0x108F4, 0x108F5),
  (0x108FB, 0x1091B), (0x10920, 0x10939), (0x10980, 0x109B7), (0x109BC, 0x109CF),
  (0x109D2, 0x10A00), (0x10A10, 0x10A13), (0x10A15, 0x10A17), (0x10A19, 0x10A35),
  (0x10A40, 0x10A48), (0x10A60, 0x10A7E), (0x10A80, 0x10A9F), (0x10AC0, 0x10AC7),
  (0x10AC9, 0x10AE4), (0x10AEB, 0x10AEF), (0x10B00, 0x10B35), (0x10B40, 0x10B55),
  (0x10B58, 0x10B72), (0x10B78, 0x10B91), (0x10BA9, 0x10BAF), (0x10C00, 0x10C48),
  (0x10C80, 0x10CB2), (0x10CC0, 0x10CF2), (0x10CFA, 0x10D23), (0x10D30, 0x10D39),
  (0x10E60, 0x10E7E), (0x10E80, 0x10EA9), (0x10EB0, 0x10EB1), (0x10F00, 0x10F27),
  (0x10F30, 0x10F45), (0x10F51, 0x10F54), (0x10F70, 0x10F81), (0x10FB0, 0x10FCB),
  (0x10FE0, 0x10FF6), (0x11003, 0x11037), (0x11052, 0x1106F), (0x11071, 0x11072),
  (0x11075, 0x11075), (0x11083, 0x110AF), (0x110D0, 0x110E8), (0x110F0, 0x110F9),
  (0x11103, 0x11126), (0x11136, 0x1113F), (0x11144, 0x11144), (0x11147, 0x11147),
  (0x11150, 0x11172), (0x11176, 0x11176), (0x11183, 0x111B2), (0x111C1, 0x111C4),
  (0x111D0, 0x111DA), (0x111DC, 0x111DC), (0x111E1, 0x111F4), (0x11200, 0x11211),
  (0x11213, 0x1122B), (0x11280, 0x11286), (0x11288, 0x11288), (0x1128A, 0x1128D),
  (0x1128F, 0x1129D), (0x1129F, 0x112A8), (0x112B0, 0x112DE), (0x112F0, 0x112F9),
  (0x11305, 0x1130C), (0x1130F, 0x11310), (0x11313, 0x11328), (0x1132A, 0x11330),
  (0x11332, 0x11333), (0x11335, 0x11339), (0x1133D, 0x1133D), (0x11350, 0x11350),
  (0x1135D, 0x11361), (0x11400, 0x11434), (0x11447, 0x1144A), (0x11450, 0x11459),
  (0x1145F, 0x11461), (0x11480, 0x114AF), (0x114C4, 0x114C5), (0x114C7, 0x114C7),
  (0x114D0, 0x114D9), (0x11580, 0x115AE), (0x115D8, 0x115DB), (0x11600, 0x1162F),
  (0x11644, 0x11644), (0x11650, 0x11659), (0x11680, 0x116AA), (0x116B8, 0x116B8),
  (0x116C0, 0x116C9), (0x11700, 0x1171A), (0x11730, 0x1173B), (0x11740, 0x11746),
  (0x11800, 0x1182B), (0x118A0, 0x118F2), (0x118FF, 0x11906), (0x11909, 0x11909),
  (0x1190C, 0x11913), (0x11915, 0x11916), (0x11918, 0x1192F), (0x1193F, 0x1193F),
  (0x11941, 0x11941), (0x11950, 0x11959), (0x119A0, 0x119A7), (0x119AA, 0x119D0),
  (0x119E1, 0x119E1), (0x119E3, 0x119E3), (0x11A00, 0x11A00), (0x11A0B, 0x11A32),
  (0x11A3A, 0x11A3A), (0x11A50, 0x11A50), (0x11A5C, 0x11A89), (0x11A9D, 0x11A9D),
  (0x11AB0, 0x11AF8), (0x11C00, 0x11C08), (0x11C0A, 0x11C2E), (0x11C40, 0x11C40),
  (0x11C50, 0x11C6C), (0x11C72, 0x11C8F), (0x11D00, 0x11D06), (0x11D08, 0x11D09),
  (0x11D0B, 0x11D30), (0x11D46, 0x11D46), (0x11D50, 0x11D59), (0x11D60, 0x11D65),
  (0x11D67, 0x11D68), (0x11D6A, 0x11D89), (0x11D98, 0x11D98), (0x11DA0, 0x11DA9),
  (0x11EE0, 0x11EF2), (0x11FB0, 0x11FB0), (0x11FC0, 0x11FD4), (0x12000, 0x12399),
  (0x12400, 0x1246E), (0x12480, 0x12543), (0x12F90, 0x12FF0), (0x13000, 0x1342E),
  (0x14400, 0x14646), (0x16800, 0x16A38), (0x16A40, 0x16A5E), (0x16A60, 0x16A69),
  (0x16A70, 0x16ABE), (0x16AC0, 0x16AC9), (0x16AD0, 0x16AED), (0x16B00, 0x16B2F),
  (0x16B40, 0x16B43), (0x16B50, 0x16B59), (0x16B5B, 0x16B61), (0x16B63, 0x16B77),
  (0x16B7D, 0x16B8F), (0x16E40, 0x16E96), (0x16F00, 0x16F4A), (0x16F50, 0x16F50),
  (0x16F93, 0x16F9F), (0x16FE0, 0x16FE1), (0x16FE3, 0x16FE3), (0x17000, 0x187F7),
  (0x18800, 0x18CD5), (0x18D00, 0x18D08), (0x1AFF0, 0x1AFF3), (0x1AFF5, 0x1AFFB),
  (0x1AFFD, 0x1AFFE), (0x1B000, 0x1B122), (0x1B150, 0x1B152), (0x1B164, 0x1B167),
  (0x1B170, 0x1B2FB), (0x1BC00, 0x1BC6A), (0x1BC70, 0x1BC7C), (0x1BC80, 0x1BC88),
  (0x1BC90, 0x1BC99), (0x1D2E0, 0x1D2F3), (0x1D360, 0x1D378), (0x1D400, 0x1D454),
  (0x1D456, 0x1D49C), (0x1D49E, 0x1D49F), (0x1D4A2, 0x1D4A2), (0x1D4A5, 0x1D4A6),
  (0x1D4A9, 0x1D4AC), (0x1D4AE, 0x1D4B9), (0x1D4BB, 0x1D4BB), (0x1D4BD, 0x1D4C3),
  (0x1D4C5, 0x1D505), (0x1D507, 0x1D50A), (0x1D50D, 0x1D514), (0x1D516, 0x1D51C),
  (0x1D51E, 0x1D539), (0x1D53B, 0x1D53E), (0x1D540, 0x1D544), (0x1D546, 0x1D546),
  (0x1D54A, 0x1D550), (0x1D552, 0x1D6A5), (0x1D6A8, 0x1D6C0), (0x1D6C2, 0x1D6DA),
  (0x1D6DC, 0x1D6FA), (0x1D6FC, 0x1D714), (0x1D716, 0x1D734), (0x1D736, 0x1D74E),
  (0x1D750, 0x1D76E), (0x1D770, 0x1D788), (0x1D78A, 0x1D7A8), (0x1D7AA, 0x1D7C2),
  (0x1D7C4, 0x1D7CB), (0x1D7CE, 0x1D7FF), (0x1DF00, 0x1DF1E), (0x1E100, 0x1E12C),
  (0x1E137, 0x1E13D), (0x1E140, 0x1E149), (0x1E14E, 0x1E14E), (0x1E290, 0x1E2AD),
  (0x1E2C0, 0x1E2EB), (0x1E2F0, 0x1E2F9), (0x1E7E0, 0x1E7E6), (0x1E7E8, 0x1E7EB),
  (0x1E7ED, 0x1E7EE), (0x1E7F0, 0x1E7FE), (0x1E800, 0x1E8C4), (0x1E8C7, 0x1E8CF),
  (0x1E900, 0x1E943), (0x1E94B, 0x1E94B), (0x1E950, 0x1E959), (0x1EC71, 0x1ECAB),
  (0x1ECAD, 0x1ECAF), (0x1ECB1, 0x1ECB4), (0x1ED01, 0x1ED2D), (0x1ED2F, 0x1ED3D),
  (0x1EE00, 0x1EE03), (0x1EE05, 0x1EE1F), (0x1EE21, 0x1EE22), (0x1EE24, 0x1EE24),
  (0x1EE27, 0x1EE27), (0x1EE29, 0x1EE32), (0x1EE34, 0x1EE37), (0x1EE39, 0x1EE39),
  (0x1EE3B, 0x1EE3B), (0x1EE42, 0x1EE42), (0x1EE47, 0x1EE47), (0x1EE49, 0x1EE49),
  (0x1EE4B, 0x1EE4B), (0x1EE4D, 0x1EE4F), (0x1EE51, 0x1EE52), (0x1EE54, 0x1EE54),
  (0x1EE57, 0x1EE57), (0x1EE59, 0x1EE59), (0x1EE5B, 0x1EE5B), (0x1EE5D, 0x1EE5D),
  (0x1EE5F, 0x1EE5F), (0x1EE61, 0x1EE62), (0x1EE64, 0x1EE64), (0x1EE67, 0x1EE6A),
  (0x1EE6C, 0x1EE72), (0x1EE74, 0x1EE77), (0x1EE79, 0x1EE7C), (0x1EE7E, 0x1EE7E),
  (0x1EE80, 0x1EE89), (0x1EE8B, 0x1EE9B), (0x1EEA1, 0x1EEA3), (0x1EEA5, 0x1EEA9),
  (0x1EEAB, 0x1EEBB), (0x1F100, 0x1F10C), (0x1FBF0, 0x1FBF9), (0x20000, 0x2A6DF),
  (0x2A700, 0x2B738), (0x2B740, 0x2B81D), (0x2B820, 0x2CEA1), (0x2CEB0, 0x2EBE0),
  (0x2F800, 0x2FA1D), (0x30000, 0x3134A)]

/-- Word characters of CMD_RE's Unicode-aware \b: ASCII alphanumerics and
underscore, plus every non-ASCII codepoint CPython's \w accepts. -/
def isWordChar (c : Char) : Bool :=
  if c.toNat ≤ 0x7F then c.isAlphanum || c = '_'
  else uniWordRanges.any fun r => r.1 ≤ c.toNat && c.toNat ≤ r.2

/-- Case-insensitive match of one lowered pattern character against one
text character, as CPython IGNORECASE matches the keyword letters: ASCII
case folding, plus the only IGNORECASE equivalences that reach these
letters (confirmed against CPython's matching over all codepoints) — the
long s U+017F for s and the Kelvin sign U+212A for k. -/
def charMatchesCI (k c : Char) : Bool :=
  c.toLower = k || (k = 's' && c.toNat = 0x17F) || (k = 'k' && c.toNat = 0x212A)

/-- Python str.lower on the characters the keyword patterns can match: the
ASCII letters fold, the long s lowercases to itself, the Kelvin sign
lowercases to k.  Applied to the matched group before the command
dispatch, as m.group(1).lower() in the source. -/
def lowerMatched (c : Char) : Char :=
  if c.toNat = 0x212A then 'k' else c.toLower

/-- Match a keyword pattern case-insensitively at the front of the input
and demand a word boundary after it; on success return the matched text
characters and the remaining characters. -/
def matchKw : List Char → List Char → Option (List Char × List Char)
  | [], rest =>
    match rest with
    | [] => some ([], [])
    | c :: _ => if isWordChar c then none else some ([], rest)
  | _ :: _, [] => none
  | k :: ks, c :: cs =>
    if charMatchesCI k c then
      match matchKw ks cs with
      | some (m, r) => some (c :: m, r)
      | none => none
    else none

/-- Try the pattern of CMD_RE at one position: a slash, then one of the
three keyword alternatives in the regex's order, then a word boundary; on
success return the matched group text and the characters after it (the
args group, which with DOTALL runs to the end of the text). -/
def tryCmdAt : List Char → Option (List Char × List Char)
  | [] => none
  | '/' :: rest =>
    match matchKw "summary".data rest with
    | some r => some r
    | none =>
      match matchKw "ask".data rest with
      | some r => some r
      | none =>
        match matchKw "update".data rest with
        | some r => some r
        | none => none
  | _ :: _ => none

/-- re.search for CMD_RE: the leftmost position where the pattern matches. -/
def findCmd : List Char → Option (List Char × List Char)
  | [] => none
  | c :: cs =>
    match tryCmdAt (c :: cs) with
    | some r => some r
    | none => findCmd cs

/-- parse_command from commands.py: the leftmost CMD_RE match, its matched
group lowercased as the cmd tag, the trailing text stripped as the
question when the tag is ask.  A non-string truthy comment content would
raise TypeError in the source before any branch of interest; the handler
hands this function only string or absent text. -/
def parse_command (text : Option String) : Option Cmd :=
  match text with
  | none => none
  | some t =>
    if t = "" then none
    else
      match findCmd t.data with
      | none => none
      | some (m, rest) =>
        let cmd := String.mk (m.map lowerMatched)
        if cmd = "ask" then some (Cmd.ask (pyStrip ⟨rest⟩))
        else if cmd = "summary" then some Cmd.summary
        else if cmd = "update" then some Cmd.update
        else some (Cmd.other cmd)

/-- is_bot_mentioned from commands.py: scan the comment's notifications for
a user record whose id converts to the bot user id; conversion failures and
non-dict user records are skipped (the source's try/except continue). -/
def mentionScan : List Json → Int → Bool
  | [], _ => false
  | notif :: rest, bid =>
    match jOr (notif.get "user") (Json.obj []) with
    | Json.obj ufs =>
      match pyInt (Json.lookupD ufs "id" (Json.num (-1))) with
      | some i => if i = bid then true else mentionScan rest bid
      | none => mentionScan rest bid
    | _ => mentionScan rest bid

/-- The notifications list of a comment; a truthy non-list value would raise
in the source's for loop and is modelled as empty. -/
def notificationsOf (comment : Json) : List Json :=
  match jOr (comment.get "notifications") (Json.arr []) with
  | Json.arr xs => xs
  | _ => []

def is_bot_mentioned (comment : Json) (botUserId : Int) : Bool :=
  mentionScan (notificationsOf comment) botUserId

/-- extract_issue_key from commands.py: issueKey, else key, else the id
stringified (empty string when id is falsy or absent). -/
def extract_issue_key (issue : Json) : String :=
  let key := jOr (issue.get "issueKey") (issue.get "key")
  match key with
  | Json.str s => if s ≠ "" then s else pyStr (jOr (issue.get "id") (Json.str ""))
  | _ => pyStr (jOr (issue.get "id") (Json.str ""))

/-! ## context_fetch.py -/

/-- Python str.split(sep) for a single-character separator. -/
def splitOnChar (c : Char) : List Char → List (List Char)
  | [] => [[]]
  | x :: xs =>
    let r := splitOnChar c xs
    if x = c then [] :: r
    else
      match r with
      | [] => [[x]]
      | h :: t => (x :: h) :: t

/-- Break a character list at the first occurrence of a nonempty separator
substring: the part before and the part after, none when absent. -/
def breakOnSub (sep : List Char) : List Char → Option (List Char × List Char)
  | [] => none
  | c :: cs =>
    if sep.isPrefixOf (c :: cs) then some ([], (c :: cs).drop sep.length)
    else
      match breakOnSub sep cs with
      | some (pre, post) => some (c :: pre, post)
      | none => none

/-- Python str.split(sep) for a substring separator, fuelled so that it
reduces structurally; fuel bounds the number of splits. -/
def splitOnSubFuel (sep : List Char) : Nat → List Char → List (List Char)
  | 0, l => [l]
  | fuel + 1, l =>
    match breakOnSub sep l with
    | none => [l]
    | some (pre, post) => pre :: splitOnSubFuel sep fuel post

def splitOnSub (sep l : List Char) : List (List Char) :=
  splitOnSubFuel sep l.length l

/-- Python sep.join(parts). -/
def joinSep (sep : String) : List String → String
  | [] => ""
  | [x] => x
  | x :: y :: rest => x ++ sep ++ joinSep sep (y :: rest)

/-- Split a character list at the first occurrence of a character; the
second component is none when the character does not occur. -/
def splitAtFirstChar (l : List Char) (c : Char) : List Char × Option (List Char) :=
  match l with
  | [] => ([], none)
  | x :: xs =>
    if x = c then ([], some xs)
    else
      let (pre, post) := splitAtFirstChar xs c
      (x :: pre, post)

structure UrlParts where
  scheme : String
  netloc : String
  path : String
  query : String
  fragment : String
  deriving DecidableEq

/-- Model of urllib.parse.urlparse, faithful for absolute URLs of the form
scheme://netloc/path?query#fragment — the only shapes that pass is_http_url
or compare equal against the configured base URL.  Inputs without "://"
give an empty scheme and netloc, as urlparse does for the relative
references the callers can meet. -/
def urlparse (url : String) : UrlParts :=
  match breakOnSub "://".data url.data with
  | some (p, after) =>
    let netloc := after.takeWhile fun c => c ≠ '/' && c ≠ '?' && c ≠ '#'
    let rem := after.drop netloc.length
    let (beforeFrag, frag) := splitAtFirstChar rem '#'
    let (path, query) := splitAtFirstChar beforeFrag '?'
    ⟨⟨p⟩, ⟨netloc⟩, ⟨path⟩, ⟨query.getD []⟩, ⟨frag.getD []⟩⟩
  | none =>
    let (beforeFrag, frag) := splitAtFirstChar url.data '#'
    let (path, query) := splitAtFirstChar beforeFrag '?'
    ⟨"", "", ⟨path⟩, ⟨query.getD []⟩, ⟨frag.getD []⟩⟩

/-- is_http_url from context_fetch.py. -/
def is_http_url (s : String) : Bool :=
  let u := urlparse s
  (u.scheme = "http" || u.scheme = "https") && u.netloc ≠ ""

/-- Python str.endswith. -/
def strEndsWith (s tail : String) : Bool := tail.data.isSuffixOf s.data

/-- allowlisted from context_fetch.py: empty allow-list admits every URL;
otherwise the netloc must equal an entry or end with "." followed by it. -/
def allowlisted (url : String) (allowedHosts : List String) : Bool :=
  if allowedHosts.isEmpty then true
  else
    let host := (urlparse url).netloc
    allowedHosts.any fun h => host = h || strEndsWith host ("." ++ h)

/-- Python str.splitlines restricted to newline separators; the handler
texts use \n (a preceding \r is later removed by str.strip and ignored by
str.split, so CRLF texts behave identically). -/
def splitLines (s : String) : List String := (splitOnChar '\n' s.data).map fun l => ⟨l⟩

/-- The loop body of extract_context_urls: the first line (in the order
given, which the caller reverses) whose stripped lowered form starts with
"context:" supplies the URLs — the part after the first colon of the
original line, whitespace-split, filtered to http(s) URLs. -/
def ctxLineScan : List String → List String
  | [] => []
  | line :: rest =>
    if ("context:".data).isPrefixOf (pyLower (pyStrip line)).data then
      let after :=
        match splitAtFirstChar line.data ':' with
        | (_, some tail) => String.mk tail
        | (_, none) => ""
      (splitWs (pyStrip after)).filter is_http_url
    else ctxLineScan rest

/-- extract_context_urls from context_fetch.py. -/
def extract_context_urls (text : Option String) : List String :=
  match text with
  | none => []
  | some t => if t = "" then [] else ctxLineScan (splitLines t).reverse

/-- parse_backlog_issue_url from context_fetch.py: (issueKey, commentId)
when the url is an issue view on the configured origin.  The first
component is some (possibly empty) string exactly when the source returns
a string rather than None. -/
def parse_backlog_issue_url (url backlogBaseUrl : String) : Option String × Option Int :=
  let u := urlparse url
  let b := urlparse backlogBaseUrl
  if u.netloc ≠ b.netloc then (none, none)
  else if !(("/view/".data).isPrefixOf u.path.data) then (none, none)
  else
    let issueKey := pyStrip ⟨(splitOnSub "/view/".data u.path.data).getLastD []⟩
    let commentId :=
      if ("comment-".data).isPrefixOf u.fragment.data then
        pyIntOfString ⟨u.fragment.data.drop 8⟩
      else none
    (some issueKey, commentId)

/-- parse_backlog_wiki_url from context_fetch.py: the last path segment of
a /wiki/ URL on the configured origin, parsed as an integer. -/
def parse_backlog_wiki_url (url backlogBaseUrl : String) : Option Int :=
  let u := urlparse url
  let b := urlparse backlogBaseUrl
  if u.netloc ≠ b.netloc then none
  else if !(("/wiki/".data).isPrefixOf u.path.data) then none
  else
    let trimmed : String := ⟨(u.path.data.reverse.dropWhile (· = '/')).reverse⟩
    pyIntOfString ⟨(splitOnChar '/' trimmed.data).getLastD []⟩

/-- Python (d.get(k) or an empty dict).get(sub): raises AttributeError when
the field holds a truthy non-dict value (modelled as Except.error). -/
def subField (d : Json) (k sub : String) : Except String Json :=
  match jOr (d.get k) (Json.obj []) with
  | Json.obj fs => Except.ok (Json.lookupD fs sub Json.null)
  | _ => Except.error "AttributeError"

/-- Python (d.get(k) or an empty dict).get("name") or the empty string. -/
def nameOf (d : Json) (k : String) : Except String Json :=
  (subField d k "name").map fun v => jOr v (Json.str "")

/-- Python sequence slicing composed with the ellipsis marker:
text[: max_chars - 1] + the marker when len(text) > max_chars. -/
def pyTruncate (text : String) (maxChars : Int) : String :=
  if (text.length : Int) > maxChars then String.mk (pyTakeChars text.data (maxChars - 1)) ++ "…"
  else text

/-- One comment line of backlog_issue_to_text.  The result is none when the
comment is filtered out by a truthy only_comment_id; int() failures on the
comment id and attribute errors on non-dict values raise, as in the
source. -/
def renderIssueComment (c : Json) (only : Option Int) : Except String (Option String) :=
  match c with
  | Json.obj cfs =>
    let keep : Except String Bool :=
      match only with
      | some oid =>
        if oid ≠ 0 then
          match pyInt (Json.lookupD cfs "id" (Json.num 0)) with
          | some cid => Except.ok (cid = oid)
          | none => Except.error "TypeError"
        else Except.ok true
      | none => Except.ok true
    match keep with
    | Except.error e => Except.error e
    | Except.ok false => Except.ok none
    | Except.ok true =>
      match nameOf (Json.obj cfs) "createdUser" with
      | Except.error e => Except.error e
      | Except.ok author =>
        let created := jOr (Json.lookupD cfs "created" Json.null) (Json.str "")
        match jOr (Json.lookupD cfs "content" Json.null) (Json.str "") with
        | Json.str s =>
          Except.ok (some ("- [" ++ pyStr created ++ "] " ++ pyStr author ++ ": " ++ pyStrip s))
        | _ => Except.error "AttributeError"
  | _ => Except.error "AttributeError"

/-- The comment loop of backlog_issue_to_text. -/
def renderIssueComments : List Json → Option Int → Except String (List String)
  | [], _ => Except.ok []
  | c :: cs, only =>
    match renderIssueComment c only with
    | Except.error e => Except.error e
    | Except.ok none => renderIssueComments cs only
    | Except.ok (some line) =>
      match renderIssueComments cs only with
      | Except.error e => Except.error e
      | Except.ok lines => Except.ok (line :: lines)

/-- The untruncated flattened text of backlog_issue_to_text: everything of
the source up to and including the newline join, before the final
truncation step. -/
def backlog_issue_raw (issue : Json) (comments : List Json)
    (onlyCommentId : Option Int) : Except String String :=
  let key := jOr (issue.get "issueKey") (jOr (issue.get "key") (Json.str ""))
  let title := jOr (issue.get "summary") (jOr (issue.get "title") (Json.str ""))
  let desc := jOr (issue.get "description") (Json.str "")
  match nameOf issue "status" with
  | Except.error e => Except.error e
  | Except.ok status =>
  match nameOf issue "priority" with
  | Except.error e => Except.error e
  | Except.ok priority =>
  match nameOf issue "assignee" with
  | Except.error e => Except.error e
  | Except.ok assignee =>
    let due := jOr (issue.get "dueDate") (Json.str "")
    let headerParts := ["Backlog Issue " ++ pyStr key]
      ++ (if title.truthy then ["題名: " ++ pyStr title] else [])
      ++ (if desc.truthy then ["説明: " ++ pyStr desc] else [])
    let fieldEntries := [
      if status.truthy then "状態: " ++ pyStr status else "",
      if priority.truthy then "優先度: " ++ pyStr priority else "",
      if assignee.truthy then "担当者: " ++ pyStr assignee else "",
      if due.truthy then "期限: " ++ pyStr due else ""]
    let fields := fieldEntries.filter (· ≠ "")
    let parts := headerParts ++ (if fields.isEmpty then [] else ["フィールド: " ++ joinSep ", " fields])
    match (if comments.isEmpty then Except.ok ([] : List String)
           else (renderIssueComments comments onlyCommentId).map fun ls => "コメント:" :: ls) with
    | Except.error e => Except.error e
    | Except.ok commentParts =>
      Except.ok (joinSep "\n" (parts ++ commentParts))

/-- backlog_issue_to_text from context_fetch.py: the flattened text,
truncated to the max_chars budget with the ellipsis marker. -/
def backlog_issue_to_text (issue : Json) (comments : List Json) (maxChars : Int)
    (onlyCommentId : Option Int) : Except String String :=
  (backlog_issue_raw issue comments onlyCommentId).map fun t => pyTruncate t maxChars

/-- One attachment line of backlog_wiki_to_text. -/
def renderAttachment (a : Json) : Except String String :=
  match a with
  | Json.obj afs =>
    let fname := jOr (Json.lookupD afs "name" Json.null)
      (jOr (Json.lookupD afs "filename" Json.null) (Json.str ""))
    let size := jOr (Json.lookupD afs "size" Json.null)
      (jOr (Json.lookupD afs "fileSize" Json.null) (Json.str ""))
    Except.ok (pyStrip ("- " ++ pyStr fname ++ " (" ++ pyStr size ++ ")"))
  | _ => Except.error "AttributeError"

/-- The attachment loop of backlog_wiki_to_text. -/
def renderAttachments : List Json → Except String (List String)
  | [] => Except.ok []
  | a :: rest =>
    match renderAttachment a with
    | Except.error e => Except.error e
    | Except.ok line =>
      match renderAttachments rest with
      | Except.error e => Except.error e
      | Except.ok lines => Except.ok (line :: lines)

/-- The untruncated flattened text of backlog_wiki_to_text.  The wiki body
is appended to the parts list unrendered in the source, so a truthy
non-string body raises at the final join; this surfaces as
Except.error. -/
def backlog_wiki_raw (wiki : Json) (attachments : List Json) :
    Except String String :=
  let name := jOr (wiki.get "name") (jOr (wiki.get "title") (Json.str ""))
  let content := jOr (wiki.get "content") (jOr (wiki.get "body") (Json.str ""))
  match subField wiki "project" "projectKey" with
  | Except.error e => Except.error e
  | Except.ok projectRaw =>
    let project := jOr projectRaw (jOr (wiki.get "projectId") (Json.str ""))
    let created := jOr (wiki.get "created") (Json.str "")
    let updated := jOr (wiki.get "updated") (Json.str "")
    match nameOf wiki "createdUser" with
    | Except.error e => Except.error e
    | Except.ok createdUser =>
    match nameOf wiki "updatedUser" with
    | Except.error e => Except.error e
    | Except.ok updatedUser =>
      let contentParts : Except String (List String) :=
        if content.truthy then
          match content with
          | Json.str s => Except.ok ["本文:", s]
          | _ => Except.error "TypeError"
        else Except.ok []
      match contentParts with
      | Except.error e => Except.error e
      | Except.ok cps =>
        match (if attachments.isEmpty then Except.ok ([] : List String)
               else (renderAttachments attachments).map fun ls => "添付:" :: ls) with
        | Except.error e => Except.error e
        | Except.ok attParts =>
          let parts := ["Backlog Wiki"]
            ++ (if project.truthy then ["プロジェクト: " ++ pyStr project] else [])
            ++ (if name.truthy then ["タイトル: " ++ pyStr name] else [])
            ++ (if created.truthy || createdUser.truthy then
                  [pyStrip ("作成: " ++ pyStr created ++ " " ++ pyStr createdUser)] else [])
            ++ (if updated.truthy || updatedUser.truthy then
                  [pyStrip ("更新: " ++ pyStr updated ++ " " ++ pyStr updatedUser)] else [])
            ++ cps ++ attParts
          Except.ok (joinSep "\n" (parts.filter (· ≠ "")))

/-- backlog_wiki_to_text from context_fetch.py: the flattened text,
truncated to the max_chars budget with the ellipsis marker. -/
def backlog_wiki_to_text (wiki : Json) (attachments : List Json) (maxChars : Int) :
    Except String String :=
  (backlog_wiki_raw wiki attachments).map fun t => pyTruncate t maxChars

/-! ## idempotency.py -/

/-- s3_record_if_new from idempotency.py, with the head_object outcome made
explicit: any exception from the existence check — a missing key (404) and
a transient store or credential failure alike — falls through to
put_object and a true (first time, proceed) result. -/
def s3_record_if_new (headOutcome : Except String Unit) (store : List String) (key : String) :
    Bool × List String :=
  match headOutcome with
  | Except.ok _ => (false, store)
  | Except.error _ => (true, key :: store)

/-- A well-behaved store: head_object succeeds exactly on recorded keys and
raises a 404 error otherwise. -/
def s3HeadFor (store : List String) (key : String) : Except String Unit :=
  if store.contains key then Except.ok () else Except.error "404"

/-! ## handler.py -/

/-- The configuration fields the handler reads (config.py Settings). -/
structure Settings where
  backlog_base_url : String
  bot_user_id : Int
  webhook_shared_secret : Option String
  idempotency_bucket : Option String
  recent_comment_count : Int
  context_url_max_bytes : Int
  context_total_max_bytes : Int
  context_allowed_hosts : List String
  llm_model : String
  llm_max_retries : Int
  require_mention : Bool
  allowed_trigger_user_ids : List Int

/-- The Lambda event as the handler consumes it.  Body decoding and JSON
parsing (_get_body) are not modelled: payload is the parsed body, with the
parse-failure fallback to an empty dict available as Json.obj []. -/
structure Event where
  headers : List (String × String)
  queryParams : List (String × String)
  rawQueryString : String
  payload : Json

/-- External calls the handler makes, in order, as a trace. -/
inductive Eff where
  | s3Head (bucket key : String) : Eff
  | s3Put (bucket key : String) : Eff
  | trackerGetIssue (key : String) : Eff
  | trackerListComments (key : String) : Eff
  | trackerPostComment (key text : String) : Eff
  | trackerGetWiki (id : Int) : Eff
  | trackerListWikiAttachments (id : Int) : Eff
  | llmInvoke (kind : String) : Eff
  deriving DecidableEq

/-- Outcomes of the external collaborators (tracker API and generation
service).  The llm field gives the outcome of the i-th generation attempt
of this invocation; prompt assembly is pure string construction that feeds
only this collaborator and never branches, so prompt text is not
modelled. -/
structure Collab where
  getIssue : String → Except String Json
  listComments : String → Except String (List Json)
  postComment : String → String → Except String Json
  getWiki : Int → Except String Json
  listWikiAttachments : Int → Except String (List Json)
  llm : Nat → Except String String

/-- The JSON responses the handler returns are flat string-valued objects;
body lists the fields of that object. -/
structure HttpResponse where
  statusCode : Nat
  body : List (String × String)
  deriving DecidableEq

/-- One run of the handler: the HTTP response, the ordered trace of
external calls, and the idempotency store after the run. -/
structure RunResult where
  response : HttpResponse
  effects : List Eff
  store : List String
  deriving DecidableEq

def withEffs (pre : List Eff) (r : RunResult) : RunResult :=
  { r with effects := pre ++ r.effects }

/-- First-match lookup in an association list of strings. -/
def lookupStr : List (String × String) → String → Option String
  | [], _ => none
  | (k, v) :: rest, key => if k = key then some v else lookupStr rest key

/-- Case-insensitive header scan of _get_header. -/
def headerScan : List (String × String) → String → Option String
  | [], _ => none
  | (k, v) :: rest, n => if pyLower k = pyLower n then some v else headerScan rest n

def get_header (e : Event) (name : String) : Option String := headerScan e.headers name

/-- The rawQueryString fallback scan of _get_query_param: skip empty
parts, return the text after the first "=" of the first part that starts
with the parameter name followed by "=". -/
def rawQsFind : List String → String → Option String
  | [], _ => none
  | p :: rest, n =>
    if p = "" then rawQsFind rest n
    else if ((n ++ "=").data).isPrefixOf p.data then some ⟨p.data.drop (n.length + 1)⟩
    else rawQsFind rest n

/-- _get_query_param from handler.py. -/
def get_query_param (e : Event) (name : String) : Option String :=
  match lookupStr e.queryParams name with
  | some v => some v
  | none =>
    if e.rawQueryString = "" then none
    else rawQsFind ((splitOnChar '&' e.rawQueryString.data).map fun l => (⟨l⟩ : String)) name

/-- The credential the secret check compares: the X-Webhook-Secret header
when truthy, else the token query parameter (the Python or). -/
def suppliedSecret (e : Event) : Option String :=
  match get_header e "X-Webhook-Secret" with
  | some h => if h = "" then get_query_param e "token" else some h
  | none => get_query_param e "token"

/-- Whether step 1 of the handler rejects the event: a truthy configured
secret that the supplied credential does not equal exactly. -/
def secretRejected (settings : Settings) (e : Event) : Bool :=
  match settings.webhook_shared_secret with
  | some secretVal => if secretVal = "" then false else suppliedSecret e != some secretVal
  | none => false

/-- _load_secrets from handler.py: the BACKLOG_API_KEY environment value
when set and non-empty, else an empty dict. -/
def load_secrets (apiKeyEnv : Option String) : List (String × String) :=
  match apiKeyEnv with
  | some k => if k ≠ "" then [("BACKLOG_API_KEY", k)] else []
  | none => []

/-- _extract_comment_and_issue from handler.py.  Only the nested shape is
inspected: the comment must be a dict under content.comment, and the
issue key comes from content.issue.issueKey, else projectKey-key_id, else
projectKey-id when the candidate stringifies to digits. -/
def extract_comment_and_issue (payload : Json) : Json × Json :=
  match jOr (payload.get "content") (Json.obj []) with
  | Json.obj cfs =>
    let commentContainer := Json.lookupD cfs "comment" Json.null
    let commentObj :=
      match commentContainer with
      | Json.obj _ => commentContainer
      | _ => Json.obj []
    let commentTextVal : Option String :=
      match commentContainer with
      | Json.obj _ =>
        match commentContainer.get "content" with
        | Json.str ct => some ct
        | _ => none
      | _ => none
    let issueField := Json.lookupD cfs "issue" Json.null
    let issueKeyVal : Option String :=
      if issueField.isObj && (issueField.get "issueKey").truthy then
        some (pyStr (issueField.get "issueKey"))
      else
        match jOr (payload.get "project") (Json.obj []) with
        | Json.obj pfs =>
          let pk := Json.lookupD pfs "projectKey" Json.null
          let kid := Json.lookupD cfs "key_id" Json.null
          let cid := Json.lookupD cfs "id" Json.null
          if pk.truthy && !kid.isNull && pyIsDigit (pyStr kid) then
            some (pyStr pk ++ "-" ++ pyStr kid)
          else if pk.truthy && !cid.isNull && pyIsDigit (pyStr cid) then
            some (pyStr pk ++ "-" ++ pyStr cid)
          else none
        | _ => none
    let commentObj2 :=
      if !commentObj.truthy then
        match commentTextVal with
        | some ct => if ct ≠ "" then Json.obj [("content", Json.str ct)] else commentObj
        | none => commentObj
      else commentObj
    let issueObj :=
      match issueKeyVal with
      | some k => if k ≠ "" then Json.obj [("issueKey", Json.str k)] else Json.obj []
      | none => Json.obj []
    (commentObj2, issueObj)
  | _ => (Json.obj [], Json.obj [])

/-- The text handed to parse_command: comment.get("content").  Falsy
non-strings behave as absent in the source; a truthy non-string would
raise before reaching any claim-relevant branch and is modelled as
absent. -/
def commentText (comment : Json) : Option String :=
  match comment.get "content" with
  | Json.str s => some s
  | _ => none

/-- The author id computed in open (require_mention false) mode: int of
comment.createdUser.id with default -1; any exception yields none. -/
def authorIdOf (comment : Json) : Option Int :=
  match jOr (comment.get "createdUser") (Json.obj []) with
  | Json.obj ufs => pyInt (Json.lookupD ufs "id" (Json.num (-1)))
  | _ => none

/-- Step 3 of the handler: whether the mention/authorization gate ignores
the event.  With require_mention, a nonzero configured bot id must appear
among the notified users; otherwise a nonempty trigger allow-list must
contain the author id. -/
def mentionGateRejects (settings : Settings) (comment : Json) : Bool :=
  if settings.require_mention then
    (settings.bot_user_id != 0) && !is_bot_mentioned comment settings.bot_user_id
  else
    !settings.allowed_trigger_user_ids.isEmpty &&
      (match authorIdOf comment with
       | some a => !settings.allowed_trigger_user_ids.contains a
       | none => true)

/-- The inner wiki branch of the context loop (step 7). -/
def ctxFetchWiki (settings : Settings) (collab : Collab) (wikiId : Option Int) :
    Option String × List Eff :=
  match wikiId with
  | some w =>
    if w ≠ 0 then
      match collab.getWiki w with
      | Except.error _ => (none, [Eff.trackerGetWiki w])
      | Except.ok wiki =>
        match collab.listWikiAttachments w with
        | Except.error _ => (none, [Eff.trackerGetWiki w, Eff.trackerListWikiAttachments w])
        | Except.ok atts =>
          match backlog_wiki_to_text wiki atts settings.context_url_max_bytes with
          | Except.error _ => (none, [Eff.trackerGetWiki w, Eff.trackerListWikiAttachments w])
          | Except.ok txt => (some txt, [Eff.trackerGetWiki w, Eff.trackerListWikiAttachments w])
    else (none, [])
  | none => (none, [])

/-- One URL of the context loop.  The source fetches the issue named by the
context URL but passes the webhook issue key — issueKey here, not the
parsed ctx key — to list_comments (comments2 in handler.py step 7). -/
def ctxFetchOne (settings : Settings) (collab : Collab) (issueKey url : String) :
    Option String × List Eff :=
  let (ctxKey, commentRef) := parse_backlog_issue_url url settings.backlog_base_url
  let wikiId := parse_backlog_wiki_url url settings.backlog_base_url
  match ctxKey with
  | some k =>
    if k ≠ "" then
      match collab.getIssue k with
      | Except.error _ => (none, [Eff.trackerGetIssue k])
      | Except.ok issueObj2 =>
        match collab.listComments issueKey with
        | Except.error _ => (none, [Eff.trackerGetIssue k, Eff.trackerListComments issueKey])
        | Except.ok comments2 =>
          match backlog_issue_to_text issueObj2 comments2 settings.context_url_max_bytes commentRef with
          | Except.error _ => (none, [Eff.trackerGetIssue k, Eff.trackerListComments issueKey])
          | Except.ok txt => (some txt, [Eff.trackerGetIssue k, Eff.trackerListComments issueKey])
    else ctxFetchWiki settings collab wikiId
  | none => ctxFetchWiki settings collab wikiId

/-- The context loop of the handler (step 7): per-URL failures are
swallowed, the loop breaks once the collected text lengths reach the total
budget, and non-allowlisted or unclassifiable URLs are skipped. -/
def ctxLoop (settings : Settings) (collab : Collab) (issueKey : String) :
    List String → List String → List String → List Eff →
    List String × List String × List Eff
  | [], texts, used, effs => (texts, used, effs)
  | url :: rest, texts, used, effs =>
    if !allowlisted url settings.context_allowed_hosts then
      ctxLoop settings collab issueKey rest texts used effs
    else if ((texts.map String.length).sum : Int) ≥ settings.context_total_max_bytes then
      (texts, used, effs)
    else
      match ctxFetchOne settings collab issueKey url with
      | (some txt, newEffs) =>
        if txt ≠ "" then
          ctxLoop settings collab issueKey rest (texts ++ [txt]) (used ++ [url]) (effs ++ newEffs)
        else ctxLoop settings collab issueKey rest texts used (effs ++ newEffs)
      | (none, newEffs) => ctxLoop settings collab issueKey rest texts used (effs ++ newEffs)

/-- The retry loop of _call_with_retry: fuel is the number of remaining
attempts (starting from range(max(1, retries))), i the index of the next
attempt.  The pair is the outcome — the last error when every attempt
fails — and the number of generation calls made. -/
def call_with_retry (llm : Nat → Except String String) : Nat → Nat → Except String String × Nat
  | _, 0 => (Except.error "LLM call failed", 0)
  | i, fuel + 1 =>
    match llm i with
    | Except.ok out => (Except.ok out, 1)
    | Except.error e =>
      if fuel = 0 then (Except.error e, 1)
      else
        let r := call_with_retry llm (i + 1) fuel
        (r.1, r.2 + 1)

/-- The fixed apology comment posted when generation fails after all
retries (handler.py step 8 error path). -/
def apologyText : String :=
  "⚠️ エラーが発生したため要約/回答を生成できませんでした。お手数ですが管理者にお問い合わせください。"

/-- Steps 8 and 9 of the handler: bounded-retry generation, the best-effort
apology on exhaustion (its posting outcome is discarded), the context
footer on summary replies, and the final reply post.  For a cmd tag other
than the three known kinds, every iteration of the retry loop raises on
the dispatch before any generation call, so the run is llm_failed with
only the apology posted. -/
def stageLlm (settings : Settings) (collab : Collab) (store : List String)
    (issueKey : String) (cmd : Cmd) (usedUrls : List String) : RunResult :=
  match cmd with
  | Cmd.other _ =>
    ⟨⟨500, [("error", "llm_failed")]⟩,
      [Eff.trackerPostComment issueKey apologyText], store⟩
  | _ =>
    let attempts := (max 1 settings.llm_max_retries).toNat
    let rc := call_with_retry collab.llm 0 attempts
    let llmEffs := List.replicate rc.2 (Eff.llmInvoke (cmdKind cmd))
    match rc.1 with
    | Except.error _ =>
      ⟨⟨500, [("error", "llm_failed")]⟩,
        llmEffs ++ [Eff.trackerPostComment issueKey apologyText], store⟩
    | Except.ok out =>
      let reply :=
        match cmd with
        | Cmd.summary =>
          if usedUrls.isEmpty then out
          else out ++ "\n\n**参照コンテキスト**\n"
            ++ joinSep "\n" (usedUrls.map fun u => "- " ++ u)
        | _ => out
      match collab.postComment issueKey reply with
      | Except.error e =>
        ⟨⟨500, [("error", "backlog post failed: " ++ e)]⟩,
          llmEffs ++ [Eff.trackerPostComment issueKey reply], store⟩
      | Except.ok _ =>
        ⟨⟨200, [("result", "ok")]⟩,
          llmEffs ++ [Eff.trackerPostComment issueKey reply], store⟩

/-- Steps 6 and 7 of the handler: fetch the issue and its recent comments
(a failure of either is a 500 without retry), then resolve link context.
The fetched issue, comments and context texts feed only prompt assembly,
which is not modelled (see Collab). -/
def stageFetch (settings : Settings) (collab : Collab) (store : List String)
    (issueKey : String) (cmd : Cmd) (comment : Json) : RunResult :=
  match collab.getIssue issueKey with
  | Except.error e =>
    ⟨⟨500, [("error", "backlog fetch failed: " ++ e)]⟩, [Eff.trackerGetIssue issueKey], store⟩
  | Except.ok _issueObj =>
    match collab.listComments issueKey with
    | Except.error e =>
      ⟨⟨500, [("error", "backlog fetch failed: " ++ e)]⟩,
        [Eff.trackerGetIssue issueKey, Eff.trackerListComments issueKey], store⟩
    | Except.ok _recent =>
      let urls := extract_context_urls (commentText comment)
      let r := ctxLoop settings collab issueKey urls [] [] []
      withEffs ([Eff.trackerGetIssue issueKey, Eff.trackerListComments issueKey] ++ r.2.2)
        (stageLlm settings collab store issueKey cmd r.2.1)

/-- Step 5 of the handler: resolve the tracker credential; a missing key is
a 500 config error. -/
def stageSecrets (settings : Settings) (apiKeyEnv : Option String) (collab : Collab)
    (store : List String) (issueKey : String) (cmd : Cmd) (comment : Json) : RunResult :=
  match lookupStr (load_secrets apiKeyEnv) "BACKLOG_API_KEY" with
  | none => ⟨⟨500, [("error", "BACKLOG_API_KEY not found")]⟩, [], store⟩
  | some _apiKey => stageFetch settings collab store issueKey cmd comment

/-- Step 4 of the handler: the idempotency gate, enabled by a truthy
bucket; a marker already recorded answers 200 duplicate_ignored. -/
def stageIdem (settings : Settings) (apiKeyEnv : Option String) (collab : Collab)
    (store : List String) (issueKey commentId : String) (cmd : Cmd) (comment : Json) : RunResult :=
  match settings.idempotency_bucket with
  | some bucket =>
    if bucket ≠ "" then
      let marker := issueKey ++ "/" ++ commentId
      let rec2 := s3_record_if_new (s3HeadFor store marker) store marker
      let s3Effs := Eff.s3Head bucket marker :: (if rec2.1 then [Eff.s3Put bucket marker] else [])
      if !rec2.1 then
        ⟨⟨200, [("result", "duplicate_ignored")]⟩, s3Effs, rec2.2⟩
      else withEffs s3Effs (stageSecrets settings apiKeyEnv collab rec2.2 issueKey cmd comment)
    else stageSecrets settings apiKeyEnv collab store issueKey cmd comment
  | none => stageSecrets settings apiKeyEnv collab store issueKey cmd comment

/-- lambda_handler from handler.py, as a pure function of the settings, the
BACKLOG_API_KEY environment value, the external collaborators, the
idempotency store contents and the event. -/
def lambda_handler (settings : Settings) (apiKeyEnv : Option String) (collab : Collab)
    (store : List String) (event : Event) : RunResult :=
  if secretRejected settings event then
    ⟨⟨401, [("error", "unauthorized")]⟩, [], store⟩
  else
    let ci := extract_comment_and_issue event.payload
    if !ci.1.truthy || !ci.2.truthy then
      ⟨⟨200, [("result", "ignored")]⟩, [], store⟩
    else if mentionGateRejects settings ci.1 then
      ⟨⟨200, [("result", "ignored")]⟩, [], store⟩
    else
      match parse_command (commentText ci.1) with
      | none => ⟨⟨200, [("result", "ignored")]⟩, [], store⟩
      | some cmd =>
        let issueKey := extract_issue_key ci.2
        let commentId := pyStr (jOr (ci.1.get "id") (Json.str ""))
        stageIdem settings apiKeyEnv collab store issueKey commentId cmd ci.1

/-- The comments posted to the tracker during a run, in order. -/
def postedComments (effs : List Eff) : List (String × String) :=
  effs.filterMap fun e =>
    match e with
    | Eff.trackerPostComment k t => some (k, t)
    | _ => none

/-- The number of generation attempts in a trace. -/
def llmCallCount (effs : List Eff) : Nat :=
  (effs.filter fun e => match e with | Eff.llmInvoke _ => true | _ => false).length

/-! ## Scenario fixtures -/

/-- Settings matching the repository's test environment: secret "secret",
bot user 123, bucket "b", base URL of space "example", library
defaults for the remaining fields (config.py). -/
def baseSettings : Settings where
  backlog_base_url := "https://example.backlog.com"
  bot_user_id := 123
  webhook_shared_secret := some "secret"
  idempotency_bucket := some "b"
  recent_comment_count := 50
  context_url_max_bytes := 100000
  context_total_max_bytes := 200000
  context_allowed_hosts := []
  llm_model := "anthropic.claude-3-haiku-20240307-v1:0"
  llm_max_retries := 2
  require_mention := true
  allowed_trigger_user_ids := []

/-- Collaborators that all succeed, mirroring the fakes in the repository's
tests: a minimal issue, one comment, an OK generation. -/
def okCollab : Collab where
  getIssue := fun _ => Except.ok (Json.obj [("summary", Json.str "S"), ("description", Json.str "D")])
  listComments := fun _ => Except.ok [Json.obj [("content", Json.str "c1")]]
  postComment := fun _ _ => Except.ok (Json.obj [("ok", Json.bool true)])
  getWiki := fun _ => Except.ok (Json.obj [("name", Json.str "W"), ("content", Json.str "wiki-body")])
  listWikiAttachments := fun _ => Except.ok []
  llm := fun _ => Except.ok "OK"

/-- The end-to-end scenario A webhook body: the flat shape, top-level
comment and issue objects. -/
def scenarioABody : Json := Json.obj [
  ("comment", Json.obj [
    ("id", Json.num 999),
    ("content", Json.str "@bot /summary\ncontext: https://example.com/x"),
    ("notifications", Json.arr [Json.obj [("user", Json.obj [("id", Json.num 123)])]])]),
  ("issue", Json.obj [("issueKey", Json.str "PROJ-1"), ("id", Json.num 1)])]

def scenarioAEvent : Event where
  headers := [("X-Webhook-Secret", "secret")]
  queryParams := []
  rawQueryString := ""
  payload := scenarioABody

/-- A nested-shape body carrying the same comment and issue as scenario A,
the shape _extract_comment_and_issue actually inspects. -/
def nestedBody (issueKey : String) (commentId : Int) (text : String) : Json := Json.obj [
  ("type", Json.num 3),
  ("content", Json.obj [
    ("comment", Json.obj [
      ("id", Json.num commentId),
      ("content", Json.str text),
      ("notifications", Json.arr [Json.obj [("user", Json.obj [("id", Json.num 123)])]]),
      ("createdUser", Json.obj [("id", Json.num 123)])]),
    ("issue", Json.obj [("issueKey", Json.str issueKey), ("id", Json.num 2)])])]

def nestedEvent (issueKey : String) (commentId : Int) (text : String) : Event where
  headers := [("X-Webhook-Secret", "secret")]
  queryParams := []
  rawQueryString := ""
  payload := nestedBody issueKey commentId text

/-- Whether some whitespace-delimited token of the text equals the keyword
case-insensitively: the specification's reading of an occurrence "as a
whole token (not a substring of a longer word)". -/
def containsWholeToken (kw : String) (t : String) : Bool :=
  (splitWs t).any fun tok => pyLower tok = pyLower kw

/-- A nested-shape payload whose content.comment is a bare string. -/
def stringCommentPayload : Json := Json.obj [("content", Json.obj [
  ("comment", Json.str "@bot /summary"),
  ("issue", Json.obj [("issueKey", Json.str "PROJ-1")])])]

/-- A nested event whose comment carries a context URL naming a different
issue (OTHER-2) than the webhook issue (PROJ-1). -/
def crossIssueContextEvent : Event :=
  nestedEvent "PROJ-1" 500 "@bot /summary\ncontext: https://example.backlog.com/view/OTHER-2"

/-! ## Theorems -/

theorem pyTruncate_length_le (s : String) (N : Int) (hN : 1 ≤ N) :
    ((pyTruncate s N).length : Int) ≤ N := by
  unfold pyTruncate
  split
  case isTrue h =>
    have h0 : (0 : Int) ≤ N - 1 := by omega
    have htake : pyTakeChars s.data (N - 1) = s.data.take (N - 1).toNat := by
      unfold pyTakeChars; rw [if_pos h0]
    rw [htake]
    have hl : ((String.mk (s.data.take (N - 1).toNat) ++ "…").length : Int)
        = ((s.data.take (N - 1).toNat).length : Int) + 1 := by
      show (((String.mk (s.data.take (N - 1).toNat) ++ "…").data.length : Nat) : Int) = _
      rw [String.data_append]
      simp [List.length_append]
    rw [hl, List.length_take]
    omega
  case isFalse h => omega

theorem pyTruncate_marker (s : String) (N : Int) (h : (s.length : Int) > N) :
    (pyTruncate s N).data.getLast? = some '…' := by
  unfold pyTruncate
  rw [if_pos h, String.data_append,
    List.getLast?_append_of_ne_nil _ (by decide : ("…".data ≠ []))]
  rfl

/-- C1: refuted by the code.  The end-to-end scenario A event — the flat
shape with top-level comment and issue, matching bot id 123 and valid
secret — is answered 200 with result "ignored" and no reply is posted,
because _extract_comment_and_issue inspects only payload.content and
produces a pair of empty objects for the flat shape; the claim (and the
repository's own happy-path test) expects 200 with result "ok" and
exactly one reply to PROJ-1. -/
theorem c1_scenario_a_flat_shape_ignored :
    (lambda_handler baseSettings (some "x") okCollab [] scenarioAEvent).response =
      ⟨200, [("result", "ignored")]⟩ ∧
    postedComments (lambda_handler baseSettings (some "x") okCollab [] scenarioAEvent).effects
      = [] ∧
    (extract_comment_and_issue scenarioABody).1 = Json.obj [] ∧
    (extract_comment_and_issue scenarioABody).2 = Json.obj [] := by
  exact ⟨rfl, rfl, rfl, rfl⟩

/-- C3: refuted by the code.  For a context URL classified as an issue
reference (OTHER-2), the handler fetches the issue named by the URL but
lists the comments of the webhook issue (PROJ-1) instead of that same
issue's comments: the trace contains getIssue OTHER-2 and a second
listComments PROJ-1, and never listComments OTHER-2. -/
theorem c3_context_issue_comments_from_wrong_issue :
    (lambda_handler baseSettings (some "x") okCollab [] crossIssueContextEvent).effects =
      [Eff.s3Head "b" "PROJ-1/500", Eff.s3Put "b" "PROJ-1/500",
       Eff.trackerGetIssue "PROJ-1", Eff.trackerListComments "PROJ-1",
       Eff.trackerGetIssue "OTHER-2", Eff.trackerListComments "PROJ-1",
       Eff.llmInvoke "summary",
       Eff.trackerPostComment "PROJ-1"
         ("OK\n\n**参照コンテキスト**\n- https://example.backlog.com/view/OTHER-2")] ∧
    Eff.trackerListComments "OTHER-2" ∉
      (lambda_handler baseSettings (some "x") okCollab [] crossIssueContextEvent).effects := by
  refine ⟨rfl, by decide⟩

/-- C10: the idempotency gate fails open.  Whatever exception the
existence check raises — 404 for an absent key or any transient store
failure — s3_record_if_new records the marker and reports first time,
proceed. -/
theorem c10_record_if_new_fails_open (e : String) (store : List String) (key : String) :
    s3_record_if_new (Except.error e) store key = (true, key :: store) := rfl

/-- C2 counterexample: a nested body whose content.comment is a bare
string is not accepted — the normalizer yields an empty comment object —
and the returned pair is not a pair of empty objects even though no
non-empty comment results (the issue side is kept). -/
theorem c2_string_comment_rejected :
    (extract_comment_and_issue stringCommentPayload).1 = Json.obj [] ∧
    (extract_comment_and_issue stringCommentPayload).2 =
      Json.obj [("issueKey", Json.str "PROJ-1")] := ⟨rfl, rfl⟩

/-- C7 counterexample: with budget N = 0 every issue flattening is
nonempty — Python text[: -1] keeps all but the last character — so the
claimed length bound fails at N = 0. -/
theorem c7_zero_budget_counterexample :
    backlog_issue_to_text (Json.obj []) [] 0 none = Except.ok "Backlog Issue…" ∧
    ¬ (("Backlog Issue…".length : Int) ≤ 0) := ⟨rfl, by decide⟩

/-- C7 (amended): for every budget N ≥ 1 and every issue or wiki input
whose flattening succeeds, the truncated text has length at most N, and
whenever the untruncated flattened text exceeds N characters the result
ends with the ellipsis marker.  (At N = 0 the length bound fails — see the
counterexample — because Python text[: -1] keeps all but one character.) -/
theorem c7_truncation_bound_amended (N : Int) (hN : 1 ≤ N) :
    (∀ (issue : Json) (comments : List Json) (only : Option Int) (t : String),
      backlog_issue_raw issue comments only = Except.ok t →
        backlog_issue_to_text issue comments N only = Except.ok (pyTruncate t N) ∧
        ((pyTruncate t N).length : Int) ≤ N ∧
        ((t.length : Int) > N → (pyTruncate t N).data.getLast? = some '…')) ∧
    (∀ (wiki : Json) (atts : List Json) (t : String),
      backlog_wiki_raw wiki atts = Except.ok t →
        backlog_wiki_to_text wiki atts N = Except.ok (pyTruncate t N) ∧
        ((pyTruncate t N).length : Int) ≤ N ∧
        ((t.length : Int) > N → (pyTruncate t N).data.getLast? = some '…')) := by
  constructor
  · intro issue comments only t h
    refine ⟨?_, pyTruncate_length_le t N hN, fun hgt => pyTruncate_marker t N hgt⟩
    unfold backlog_issue_to_text
    rw [h]
    rfl
  · intro wiki atts t h
    refine ⟨?_, pyTruncate_length_le t N hN, fun hgt => pyTruncate_marker t N hgt⟩
    unfold backlog_wiki_to_text
    rw [h]
    rfl

/-- Witness for C7 (amended) at budget 5 on a concrete issue: the
14-character flattening is cut to exactly 5 characters ending in the
marker. -/
theorem c7_truncation_bound_amended_witness :
    backlog_issue_to_text (Json.obj []) [] 5 none = Except.ok "Back…" ∧
    (("Back…".length : Int) ≤ 5) ∧
    "Back…".data.getLast? = some '…' := by
  have h := (c7_truncation_bound_amended 5 (by norm_num)).1 (Json.obj []) [] none
    "Backlog Issue " rfl
  exact ⟨h.1, h.2.1, h.2.2 (by decide)⟩

/-- C4: with a truthy shared secret configured, every event whose supplied
credential — the X-Webhook-Secret header when truthy, else the token query
parameter, including the missing case — differs from the secret is
answered 401 unauthorized; the effect trace is empty (no store, tracker or
model call) and the result does not depend on the payload, so the
rejection precedes body parsing. -/
theorem c4_secret_mismatch_rejected
    (settings : Settings) (secretVal : String) (apiKeyEnv : Option String)
    (collab : Collab) (store : List String) (event : Event)
    (hs : settings.webhook_shared_secret = some secretVal) (hne : secretVal ≠ "")
    (hmis : suppliedSecret event ≠ some secretVal) :
    lambda_handler settings apiKeyEnv collab store event =
      ⟨⟨401, [("error", "unauthorized")]⟩, [], store⟩ := by
  have hrej : secretRejected settings event = true := by
    unfold secretRejected
    rw [hs]
    simp [hne, hmis]
  unfold lambda_handler
  rw [hrej]
  rfl

/-- Witness for C4: an event carrying no credential at all against the
base settings. -/
theorem c4_secret_mismatch_rejected_witness :
    lambda_handler baseSettings (some "x") okCollab []
      { headers := [], queryParams := [], rawQueryString := "", payload := scenarioABody } =
      ⟨⟨401, [("error", "unauthorized")]⟩, [], []⟩ :=
  c4_secret_mismatch_rejected baseSettings "secret" (some "x") okCollab [] _ rfl
    (by decide) (by decide)

theorem stageIdem_first_time (settings : Settings) (apiKeyEnv : Option String) (collab : Collab)
    (store : List String) (issueKey commentId : String) (cmd : Cmd) (comment : Json)
    (bucket : String) (hb : settings.idempotency_bucket = some bucket) (hbne : bucket ≠ "")
    (hm : store.contains (issueKey ++ "/" ++ commentId) = false) :
    stageIdem settings apiKeyEnv collab store issueKey commentId cmd comment =
      withEffs [Eff.s3Head bucket (issueKey ++ "/" ++ commentId),
                Eff.s3Put bucket (issueKey ++ "/" ++ commentId)]
        (stageSecrets settings apiKeyEnv collab ((issueKey ++ "/" ++ commentId) :: store)
          issueKey cmd comment) := by
  unfold stageIdem
  rw [hb]
  simp only [if_pos hbne, s3_record_if_new, s3HeadFor, hm]
  rfl

theorem stageIdem_duplicate (settings : Settings) (apiKeyEnv : Option String) (collab : Collab)
    (store : List String) (issueKey commentId : String) (cmd : Cmd) (comment : Json)
    (bucket : String) (hb : settings.idempotency_bucket = some bucket) (hbne : bucket ≠ "")
    (hm : store.contains (issueKey ++ "/" ++ commentId) = true) :
    stageIdem settings apiKeyEnv collab store issueKey commentId cmd comment =
      ⟨⟨200, [("result", "duplicate_ignored")]⟩,
        [Eff.s3Head bucket (issueKey ++ "/" ++ commentId)], store⟩ := by
  unfold stageIdem
  rw [hb]
  simp only [if_pos hbne, s3_record_if_new, s3HeadFor, hm]
  rfl

/-- C5: with a bucket configured, for every (issue key, comment id) pair
the first invocation reaching the idempotency gate — one whose store does
not yet hold the marker issueKey/commentId — records that marker and
proceeds, and every invocation whose store already holds the marker
(whichever process put it there, and whatever the collaborators would do)
answers 200 duplicate_ignored, with zero replies posted and only the
existence check performed; instantiated end to end on the pair
(PROJ-2, 1000). -/
theorem c5_idempotency_gate :
    (∀ (settings : Settings) (apiKeyEnv : Option String) (collab : Collab)
       (store : List String) (issueKey commentId : String) (cmd : Cmd) (comment : Json)
       (bucket : String),
      settings.idempotency_bucket = some bucket → bucket ≠ "" →
      store.contains (issueKey ++ "/" ++ commentId) = false →
      stageIdem settings apiKeyEnv collab store issueKey commentId cmd comment =
        withEffs [Eff.s3Head bucket (issueKey ++ "/" ++ commentId),
                  Eff.s3Put bucket (issueKey ++ "/" ++ commentId)]
          (stageSecrets settings apiKeyEnv collab ((issueKey ++ "/" ++ commentId) :: store)
            issueKey cmd comment)) ∧
    (∀ (settings : Settings) (apiKeyEnv : Option String) (collab : Collab)
       (store : List String) (issueKey commentId : String) (cmd : Cmd) (comment : Json)
       (bucket : String),
      settings.idempotency_bucket = some bucket → bucket ≠ "" →
      store.contains (issueKey ++ "/" ++ commentId) = true →
      stageIdem settings apiKeyEnv collab store issueKey commentId cmd comment =
        ⟨⟨200, [("result", "duplicate_ignored")]⟩,
          [Eff.s3Head bucket (issueKey ++ "/" ++ commentId)], store⟩) ∧
    (∀ store : List String, store.contains "PROJ-2/1000" = false →
      lambda_handler baseSettings (some "x") okCollab store
          (nestedEvent "PROJ-2" 1000 "@bot /summary") =
        ⟨⟨200, [("result", "ok")]⟩,
         [Eff.s3Head "b" "PROJ-2/1000", Eff.s3Put "b" "PROJ-2/1000",
          Eff.trackerGetIssue "PROJ-2", Eff.trackerListComments "PROJ-2",
          Eff.llmInvoke "summary", Eff.trackerPostComment "PROJ-2" "OK"],
         "PROJ-2/1000" :: store⟩) ∧
    (∀ (collab : Collab) (apiKeyEnv : Option String) (store : List String),
      store.contains "PROJ-2/1000" = true →
      lambda_handler baseSettings apiKeyEnv collab store
          (nestedEvent "PROJ-2" 1000 "@bot /summary") =
        ⟨⟨200, [("result", "duplicate_ignored")]⟩, [Eff.s3Head "b" "PROJ-2/1000"], store⟩) := by
  refine ⟨fun settings apiKeyEnv collab store issueKey commentId cmd comment bucket hb hbne hm =>
      stageIdem_first_time settings apiKeyEnv collab store issueKey commentId cmd comment
        bucket hb hbne hm,
    fun settings apiKeyEnv collab store issueKey commentId cmd comment bucket hb hbne hm =>
      stageIdem_duplicate settings apiKeyEnv collab store issueKey commentId cmd comment
        bucket hb hbne hm, ?_, ?_⟩
  · intro store hm
    have h1 : lambda_handler baseSettings (some "x") okCollab store
        (nestedEvent "PROJ-2" 1000 "@bot /summary")
        = stageIdem baseSettings (some "x") okCollab store "PROJ-2" "1000" Cmd.summary
            ((extract_comment_and_issue (nestedBody "PROJ-2" 1000 "@bot /summary")).1) := rfl
    rw [h1, stageIdem_first_time baseSettings (some "x") okCollab store "PROJ-2" "1000"
      Cmd.summary _ "b" rfl (by decide) hm]
    rfl
  · intro collab apiKeyEnv store hm
    have h1 : lambda_handler baseSettings apiKeyEnv collab store
        (nestedEvent "PROJ-2" 1000 "@bot /summary")
        = stageIdem baseSettings apiKeyEnv collab store "PROJ-2" "1000" Cmd.summary
            ((extract_comment_and_issue (nestedBody "PROJ-2" 1000 "@bot /summary")).1) := rfl
    rw [h1, stageIdem_duplicate baseSettings apiKeyEnv collab store "PROJ-2" "1000"
      Cmd.summary _ "b" rfl (by decide) hm]
    rfl

/-- Witness for C5: the fresh store, then the very store the first run
produced. -/
theorem c5_idempotency_gate_witness :
    lambda_handler baseSettings (some "x") okCollab []
        (nestedEvent "PROJ-2" 1000 "@bot /summary") =
      ⟨⟨200, [("result", "ok")]⟩,
       [Eff.s3Head "b" "PROJ-2/1000", Eff.s3Put "b" "PROJ-2/1000",
        Eff.trackerGetIssue "PROJ-2", Eff.trackerListComments "PROJ-2",
        Eff.llmInvoke "summary", Eff.trackerPostComment "PROJ-2" "OK"],
       ["PROJ-2/1000"]⟩ ∧
    lambda_handler baseSettings (some "x") okCollab ["PROJ-2/1000"]
        (nestedEvent "PROJ-2" 1000 "@bot /summary") =
      ⟨⟨200, [("result", "duplicate_ignored")]⟩, [Eff.s3Head "b" "PROJ-2/1000"],
       ["PROJ-2/1000"]⟩ :=
  ⟨c5_idempotency_gate.2.2.1 [] rfl,
   c5_idempotency_gate.2.2.2 okCollab (some "x") ["PROJ-2/1000"] (by decide)⟩

theorem call_with_retry_all_fail (f : Nat → String) :
    ∀ (fuel i : Nat), 1 ≤ fuel →
      call_with_retry (fun j => Except.error (f j)) i fuel =
        (Except.error (f (i + fuel - 1)), fuel) := by
  intro fuel
  induction fuel with
  | zero => intro i h; omega
  | succ n ih =>
    intro i _
    cases n with
    | zero => rfl
    | succ m =>
      have hrec := ih (i + 1) (by omega)
      rw [show i + 1 + (m + 1) - 1 = i + (m + 1 + 1) - 1 from by omega] at hrec
      show ((call_with_retry (fun j => Except.error (f j)) (i + 1) (m + 1)).1,
            (call_with_retry (fun j => Except.error (f j)) (i + 1) (m + 1)).2 + 1) = _
      rw [hrec]

theorem llmCallCount_append (a b : List Eff) :
    llmCallCount (a ++ b) = llmCallCount a + llmCallCount b := by
  simp [llmCallCount, List.filter_append]

theorem llmCallCount_replicate (n : Nat) (k : String) :
    llmCallCount (List.replicate n (Eff.llmInvoke k)) = n := by
  induction n with
  | zero => rfl
  | succ m ih =>
    rw [List.replicate_succ]
    show llmCallCount ([Eff.llmInvoke k] ++ List.replicate m (Eff.llmInvoke k)) = m + 1
    rw [llmCallCount_append, ih]
    show 1 + m = m + 1
    omega

theorem postedComments_append (a b : List Eff) :
    postedComments (a ++ b) = postedComments a ++ postedComments b := by
  simp [postedComments, List.filterMap_append]

theorem postedComments_replicate_llm (n : Nat) (k : String) :
    postedComments (List.replicate n (Eff.llmInvoke k)) = [] := by
  induction n with
  | zero => rfl
  | succ m ih =>
    rw [List.replicate_succ]
    show postedComments ([Eff.llmInvoke k] ++ List.replicate m (Eff.llmInvoke k)) = []
    rw [postedComments_append, ih]
    rfl

/-- C6: when the generation service fails on every attempt, the scenario D
run makes exactly max(1, configured retry count) generation calls, the
retry loop propagates the error of the last attempt, the response is 500
llm_failed, and exactly one comment — the fixed apology — is posted to the
issue, whatever the outcome of that best-effort post is. -/
theorem c6_llm_failure_path (retries : Int) (f : Nat → String)
    (postOutcome : Except String Json) :
    (lambda_handler { baseSettings with llm_max_retries := retries } (some "x")
        { okCollab with llm := fun i => Except.error (f i),
                        postComment := fun _ _ => postOutcome }
        [] (nestedEvent "PROJ-2" 1000 "@bot /summary")).response =
      ⟨500, [("error", "llm_failed")]⟩ ∧
    llmCallCount (lambda_handler { baseSettings with llm_max_retries := retries } (some "x")
        { okCollab with llm := fun i => Except.error (f i),
                        postComment := fun _ _ => postOutcome }
        [] (nestedEvent "PROJ-2" 1000 "@bot /summary")).effects = (max 1 retries).toNat ∧
    postedComments (lambda_handler { baseSettings with llm_max_retries := retries } (some "x")
        { okCollab with llm := fun i => Except.error (f i),
                        postComment := fun _ _ => postOutcome }
        [] (nestedEvent "PROJ-2" 1000 "@bot /summary")).effects = [("PROJ-2", apologyText)] ∧
    call_with_retry (fun i => Except.error (f i)) 0 (max 1 retries).toNat =
      (Except.error (f ((max 1 retries).toNat - 1)), (max 1 retries).toNat) := by
  have hattempts : 1 ≤ (max 1 retries).toNat := by omega
  have hretry := call_with_retry_all_fail f (max 1 retries).toNat 0 hattempts
  rw [Nat.zero_add] at hretry
  have h1 : lambda_handler { baseSettings with llm_max_retries := retries } (some "x")
      { okCollab with llm := fun i => Except.error (f i),
                      postComment := fun _ _ => postOutcome }
      [] (nestedEvent "PROJ-2" 1000 "@bot /summary")
      = withEffs [Eff.s3Head "b" "PROJ-2/1000", Eff.s3Put "b" "PROJ-2/1000",
                  Eff.trackerGetIssue "PROJ-2", Eff.trackerListComments "PROJ-2"]
          (stageLlm { baseSettings with llm_max_retries := retries }
            { okCollab with llm := fun i => Except.error (f i),
                            postComment := fun _ _ => postOutcome }
            ["PROJ-2/1000"] "PROJ-2" Cmd.summary []) := rfl
  have h2 : stageLlm { baseSettings with llm_max_retries := retries }
      { okCollab with llm := fun i => Except.error (f i),
                      postComment := fun _ _ => postOutcome }
      ["PROJ-2/1000"] "PROJ-2" Cmd.summary []
      = ⟨⟨500, [("error", "llm_failed")]⟩,
         List.replicate (max 1 retries).toNat (Eff.llmInvoke "summary")
           ++ [Eff.trackerPostComment "PROJ-2" apologyText], ["PROJ-2/1000"]⟩ := by
    simp only [stageLlm]
    rw [hretry]
    rfl
  rw [h1, h2]
  refine ⟨rfl, ?_, ?_, hretry⟩
  · show llmCallCount ([Eff.s3Head "b" "PROJ-2/1000", Eff.s3Put "b" "PROJ-2/1000",
      Eff.trackerGetIssue "PROJ-2", Eff.trackerListComments "PROJ-2"]
      ++ (List.replicate (max 1 retries).toNat (Eff.llmInvoke "summary")
          ++ [Eff.trackerPostComment "PROJ-2" apologyText])) = (max 1 retries).toNat
    rw [llmCallCount_append, llmCallCount_append, llmCallCount_replicate]
    simp [llmCallCount]
  · show postedComments ([Eff.s3Head "b" "PROJ-2/1000", Eff.s3Put "b" "PROJ-2/1000",
      Eff.trackerGetIssue "PROJ-2", Eff.trackerListComments "PROJ-2"]
      ++ (List.replicate (max 1 retries).toNat (Eff.llmInvoke "summary")
          ++ [Eff.trackerPostComment "PROJ-2" apologyText])) = [("PROJ-2", apologyText)]
    rw [postedComments_append, postedComments_append, postedComments_replicate_llm]
    simp [postedComments]

/-- C8 counterexample: in "see docs/summary.txt" none of the keywords
occurs as a whole whitespace-delimited token, yet the parser fires on the
embedded /summary because the regex only requires a trailing word
boundary. -/
theorem c8_embedded_keyword_counterexample :
    containsWholeToken "/summary" "see docs/summary.txt" = false ∧
    containsWholeToken "/ask" "see docs/summary.txt" = false ∧
    containsWholeToken "/update" "see docs/summary.txt" = false ∧
    parse_command (some "see docs/summary.txt") = some Cmd.summary := ⟨rfl, rfl, rfl, rfl⟩

theorem findCmd_none_iff (cs : List Char) :
    findCmd cs = none ↔ ∀ i, tryCmdAt (cs.drop i) = none := by
  induction cs with
  | nil =>
    constructor
    · intro _ i
      rw [List.drop_nil]
      rfl
    · intro _
      rfl
  | cons c cs ih =>
    constructor
    · intro h i
      unfold findCmd at h
      cases htry : tryCmdAt (c :: cs) with
      | some r => rw [htry] at h; cases h
      | none =>
        rw [htry] at h
        cases i with
        | zero => exact htry
        | succ n => exact (ih.mp h) n
    · intro H
      unfold findCmd
      have h0 : tryCmdAt (c :: cs) = none := H 0
      rw [h0]
      exact ih.mpr fun n => H (n + 1)

theorem findCmd_first (cs : List Char) (i : Nat) (r : List Char × List Char)
    (hmin : ∀ j, j < i → tryCmdAt (cs.drop j) = none)
    (hi : tryCmdAt (cs.drop i) = some r) :
    findCmd cs = some r := by
  induction cs generalizing i with
  | nil =>
    rw [List.drop_nil] at hi
    cases hi
  | cons c cs ih =>
    unfold findCmd
    cases htry : tryCmdAt (c :: cs) with
    | some r2 =>
      cases i with
      | zero =>
        have hi0 : tryCmdAt (c :: cs) = some r := hi
        rw [htry] at hi0
        cases hi0
        rfl
      | succ n =>
        have h0 : tryCmdAt (c :: cs) = none := hmin 0 (Nat.succ_pos n)
        rw [h0] at htry
        cases htry
    | none =>
      cases i with
      | zero =>
        have hi0 : tryCmdAt (c :: cs) = some r := hi
        rw [htry] at hi0
        cases hi0
      | succ n =>
        show findCmd cs = some r
        exact ih n (fun j hj => hmin (j + 1) (by omega)) hi

set_option maxRecDepth 40000 in
/-- C8 (amended): the parser returns no command for empty or absent input
and whenever no keyword occurrence with a trailing Unicode word boundary
(the next character neither end of text nor a regex word character —
letters and digits of any script, or underscore) exists anywhere in the
text; when such occurrences exist the leftmost one wins, the lowercased
matched group is the command tag (matching is case-insensitive, including
the long-s and Kelvin-sign equivalences of CPython's IGNORECASE), and for
/ask the trailing text to the end of the input, trimmed of Unicode
whitespace, becomes the question.  The original whole-token condition is
refuted by the counterexample: no leading token boundary is required.
The closing concrete clauses pin the Unicode behavior to CPython's: a
keyword followed by a Japanese word character does not match and a later
/ask then wins, an ideographic space is trimmed from the question, a
Kelvin-sign /asK is a genuine ask, and a long-s /aſk yields the unknown
tag aſk. -/
theorem c8_parser_amended :
    (parse_command none = none) ∧
    (parse_command (some "") = none) ∧
    (∀ t : String, (∀ i, tryCmdAt (t.data.drop i) = none) →
      parse_command (some t) = none) ∧
    (∀ (t : String) (i : Nat) (m rest : List Char),
      (∀ j, j < i → tryCmdAt (t.data.drop j) = none) →
      tryCmdAt (t.data.drop i) = some (m, rest) →
      String.mk (m.map lowerMatched) = "ask" →
      parse_command (some t) = some (Cmd.ask (pyStrip ⟨rest⟩))) ∧
    (∀ (t : String) (i : Nat) (m rest : List Char),
      (∀ j, j < i → tryCmdAt (t.data.drop j) = none) →
      tryCmdAt (t.data.drop i) = some (m, rest) →
      String.mk (m.map lowerMatched) = "summary" →
      parse_command (some t) = some Cmd.summary) ∧
    (∀ (t : String) (i : Nat) (m rest : List Char),
      (∀ j, j < i → tryCmdAt (t.data.drop j) = none) →
      tryCmdAt (t.data.drop i) = some (m, rest) →
      String.mk (m.map lowerMatched) = "update" →
      parse_command (some t) = some Cmd.update) ∧
    (parse_command (some "/summaryです") = none) ∧
    (parse_command (some "/summaryです /ask q") = some (Cmd.ask "q")) ∧
    (parse_command (some "/ask　質問  ") = some (Cmd.ask "質問")) ∧
    (parse_command (some "/asK q") = some (Cmd.ask "q")) ∧
    (parse_command (some "/aſk q") = some (Cmd.other "aſk")) := by
  refine ⟨rfl, rfl, ?_, ?_, ?_, ?_, by rfl, by rfl, by rfl, by rfl, by rfl⟩
  · intro t H
    simp only [parse_command]
    split
    · rfl
    · rw [(findCmd_none_iff t.data).mpr H]
  · intro t i m rest hmin hi hlow
    simp only [parse_command]
    split
    case isTrue h =>
      rw [h] at hi
      have hi2 : tryCmdAt (List.drop i ([] : List Char)) = some (m, rest) := hi
      rw [List.drop_nil] at hi2
      cases hi2
    case isFalse h =>
      rw [findCmd_first t.data i (m, rest) hmin hi]
      simp only [hlow]
      rfl
  · intro t i m rest hmin hi hlow
    simp only [parse_command]
    split
    case isTrue h =>
      rw [h] at hi
      have hi2 : tryCmdAt (List.drop i ([] : List Char)) = some (m, rest) := hi
      rw [List.drop_nil] at hi2
      cases hi2
    case isFalse h =>
      rw [findCmd_first t.data i (m, rest) hmin hi]
      simp only [hlow]
      rfl
  · intro t i m rest hmin hi hlow
    simp only [parse_command]
    split
    case isTrue h =>
      rw [h] at hi
      have hi2 : tryCmdAt (List.drop i ([] : List Char)) = some (m, rest) := hi
      rw [List.drop_nil] at hi2
      cases hi2
    case isFalse h =>
      rw [findCmd_first t.data i (m, rest) hmin hi]
      simp only [hlow]
      rfl

/-- Witness for C8 (amended): the first boundary-qualified occurrence in
"x /ask q" is the /ask at index 2, its matched group lowers to the ask
tag, and the question is the trimmed trailing text. -/
theorem c8_parser_amended_witness :
    parse_command (some "x /ask q") = some (Cmd.ask "q") :=
  c8_parser_amended.2.2.2.1 "x /ask q" 2 ['a', 's', 'k'] [' ', 'q']
    (fun j hj => by interval_cases j <;> rfl) rfl rfl

/-- C9: a URL passes the host filter exactly when the allow-list is empty,
or its netloc equals an allowed entry, or its netloc ends in a dot
followed by an allowed entry (a dot-suffixed subdomain); in particular
docs.example.com passes under [example.com] while evilexample.com does
not. -/
theorem c9_allowlist_host_match :
    (∀ (url : String) (hosts : List String),
      allowlisted url hosts = true ↔
        (hosts = [] ∨ ∃ h ∈ hosts, (urlparse url).netloc = h ∨
          ("." ++ h).data <:+ (urlparse url).netloc.data)) ∧
    allowlisted "https://docs.example.com/x" ["example.com"] = true ∧
    allowlisted "https://evilexample.com/x" ["example.com"] = false := by
  refine ⟨?_, rfl, rfl⟩
  intro url hosts
  unfold allowlisted strEndsWith
  cases hosts with
  | nil => simp
  | cons h t =>
    rw [if_neg (by simp : ¬(h :: t).isEmpty = true)]
    rw [List.any_eq_true]
    constructor
    · intro ⟨x, hx, hp⟩
      refine Or.inr ⟨x, hx, ?_⟩
      rcases Bool.or_eq_true_iff.mp hp with heq | hsuf
      · exact Or.inl (by exact_mod_cast of_decide_eq_true heq)
      · exact Or.inr (List.isSuffixOf_iff_suffix.mp hsuf)
    · intro hdisj
      rcases hdisj with hnil | ⟨x, hx, hp⟩
      · cases hnil
      · refine ⟨x, hx, Bool.or_eq_true_iff.mpr ?_⟩
        rcases hp with heq | hsuf
        · exact Or.inl (decide_eq_true heq)
        · exact Or.inr (List.isSuffixOf_iff_suffix.mpr hsuf)

/-- Witness for C9: the subdomain example instantiated through the
characterization. -/
theorem c9_allowlist_host_match_witness :
    allowlisted "https://docs.example.com/x" ["example.com"] = true :=
  (c9_allowlist_host_match.1 "https://docs.example.com/x" ["example.com"]).mpr
    (Or.inr ⟨"example.com", by decide, Or.inr (by decide)⟩)

theorem append_dash_ne_empty (a b : String) : a ++ "-" ++ b ≠ "" := by
  intro h
  have h2 := congrArg String.data h
  rw [String.data_append, String.data_append,
    show ("-" : String).data = ['-'] from rfl,
    show ("" : String).data = [] from rfl] at h2
  simp at h2

/-- C2 (amended): the nested-shape normalizer accepts content.comment only
when it is a dict (passed through whole); a bare string comment — refuted
by the counterexample — yields an empty comment object.  The issue key is
derived in priority order: content.issue.issueKey when that dict carries a
truthy key; else projectKey-key_id when key_id stringifies to digits; else
projectKey-id likewise.  Whenever either component comes out empty the
handler answers 200 ignored with no external call (the ignore signal is
the emptiness of a component, not a pair of empty objects). -/
theorem c2_nested_normalizer_amended
    (payload : Json) (cfs : List (String × Json))
    (hc : jOr (payload.get "content") (Json.obj []) = Json.obj cfs) :
    ((Json.lookupD cfs "comment" Json.null).isObj = false →
      (extract_comment_and_issue payload).1 = Json.obj []) ∧
    (∀ ffs : List (String × Json), Json.lookupD cfs "comment" Json.null = Json.obj ffs →
      (extract_comment_and_issue payload).1 = Json.obj ffs) ∧
    (∀ (ifs : List (String × Json)) (s : String),
      Json.lookupD cfs "issue" Json.null = Json.obj ifs →
      Json.lookupD ifs "issueKey" Json.null = Json.str s → s ≠ "" →
      (extract_comment_and_issue payload).2 = Json.obj [("issueKey", Json.str s)]) ∧
    (∀ (pfs : List (String × Json)) (pk : String) (kid : Json),
      ((Json.lookupD cfs "issue" Json.null).isObj
        && ((Json.lookupD cfs "issue" Json.null).get "issueKey").truthy) = false →
      jOr (payload.get "project") (Json.obj []) = Json.obj pfs →
      Json.lookupD pfs "projectKey" Json.null = Json.str pk → pk ≠ "" →
      Json.lookupD cfs "key_id" Json.null = kid → kid.isNull = false →
      pyIsDigit (pyStr kid) = true →
      (extract_comment_and_issue payload).2 =
        Json.obj [("issueKey", Json.str (pk ++ "-" ++ pyStr kid))]) ∧
    (∀ (pfs : List (String × Json)) (pk : String) (cid : Json),
      ((Json.lookupD cfs "issue" Json.null).isObj
        && ((Json.lookupD cfs "issue" Json.null).get "issueKey").truthy) = false →
      jOr (payload.get "project") (Json.obj []) = Json.obj pfs →
      Json.lookupD pfs "projectKey" Json.null = Json.str pk → pk ≠ "" →
      ((Json.lookupD pfs "projectKey" Json.null).truthy
        && !(Json.lookupD cfs "key_id" Json.null).isNull
        && pyIsDigit (pyStr (Json.lookupD cfs "key_id" Json.null))) = false →
      Json.lookupD cfs "id" Json.null = cid → cid.isNull = false →
      pyIsDigit (pyStr cid) = true →
      (extract_comment_and_issue payload).2 =
        Json.obj [("issueKey", Json.str (pk ++ "-" ++ pyStr cid))]) ∧
    (∀ (settings : Settings) (apiKeyEnv : Option String) (collab : Collab)
       (store : List String) (event : Event),
      secretRejected settings event = false →
      ((extract_comment_and_issue event.payload).1.truthy = false ∨
       (extract_comment_and_issue event.payload).2.truthy = false) →
      lambda_handler settings apiKeyEnv collab store event =
        ⟨⟨200, [("result", "ignored")]⟩, [], store⟩) := by
  refine ⟨?_, ?_, ?_, ?_, ?_, ?_⟩
  · intro hcm
    simp only [extract_comment_and_issue, hc]
    cases hcc : Json.lookupD cfs "comment" Json.null with
    | obj ffs => rw [hcc] at hcm; simp [Json.isObj] at hcm
    | null => rfl
    | bool b => rfl
    | num n => rfl
    | str s => rfl
    | arr items => rfl
  · intro ffs hcc
    simp only [extract_comment_and_issue, hc, hcc]
    cases ffs with
    | nil => rfl
    | cons p ps => rfl
  · intro ifs s hif hkey hs
    simp only [extract_comment_and_issue, hc, hif]
    have hcond : ((Json.obj ifs).isObj && ((Json.obj ifs).get "issueKey").truthy) = true := by
      simp [Json.isObj, Json.get, hkey, Json.truthy, hs]
    simp only [hcond, if_true]
    simp only [Json.get, hkey, pyStr]
    rw [if_pos hs]
  · intro pfs pk kid hcond1 hproj hpk hpkne hkid hkidnull hdig
    simp only [extract_comment_and_issue, hc, hcond1, hproj, hpk, hkid]
    have hfull : ((Json.str pk).truthy && !kid.isNull && pyIsDigit (pyStr kid)) = true := by
      simp [Json.truthy, hpkne, hkidnull, hdig]
    simp only [Bool.false_eq_true, if_false, hfull, if_true]
    rw [if_pos (append_dash_ne_empty (pyStr (Json.str pk)) (pyStr kid))]
    rfl
  · intro pfs pk cid hcond1 hproj hpk hpkne hnokid hcid hcidnull hdig
    simp only [extract_comment_and_issue, hc, hcond1, hproj, hcid, hnokid]
    simp only [Bool.false_eq_true, if_false, hpk]
    have hfull : ((Json.str pk).truthy && !cid.isNull && pyIsDigit (pyStr cid)) = true := by
      simp [Json.truthy, hpkne, hcidnull, hdig]
    simp only [hfull, if_true]
    rw [if_pos (append_dash_ne_empty (pyStr (Json.str pk)) (pyStr cid))]
    rfl
  · intro settings apiKeyEnv collab store event hsec hempty
    unfold lambda_handler
    rw [hsec]
    have hcond : (!(extract_comment_and_issue event.payload).1.truthy
        || !(extract_comment_and_issue event.payload).2.truthy) = true := by
      rcases hempty with h | h <;> simp [h]
    simp only [Bool.false_eq_true, if_false, hcond, if_true]

/-- Witness for C6 at two configured retries and a failing post: both
generation attempts fail, the response is 500 llm_failed and exactly the
apology is posted. -/
theorem c6_llm_failure_path_witness :
    (lambda_handler { baseSettings with llm_max_retries := 2 } (some "x")
        { okCollab with llm := fun _ => Except.error "bedrock down",
                        postComment := fun _ _ => Except.error "post down" }
        [] (nestedEvent "PROJ-2" 1000 "@bot /summary")).response =
      ⟨500, [("error", "llm_failed")]⟩ ∧
    llmCallCount (lambda_handler { baseSettings with llm_max_retries := 2 } (some "x")
        { okCollab with llm := fun _ => Except.error "bedrock down",
                        postComment := fun _ _ => Except.error "post down" }
        [] (nestedEvent "PROJ-2" 1000 "@bot /summary")).effects = (max 1 (2 : Int)).toNat ∧
    postedComments (lambda_handler { baseSettings with llm_max_retries := 2 } (some "x")
        { okCollab with llm := fun _ => Except.error "bedrock down",
                        postComment := fun _ _ => Except.error "post down" }
        [] (nestedEvent "PROJ-2" 1000 "@bot /summary")).effects = [("PROJ-2", apologyText)] ∧
    call_with_retry (fun _ => Except.error "bedrock down") 0 (max 1 (2 : Int)).toNat =
      (Except.error "bedrock down", (max 1 (2 : Int)).toNat) :=
  c6_llm_failure_path 2 (fun _ => "bedrock down") (Except.error "post down")

/-- Witness for C10: a transient store failure still records and
proceeds. -/
theorem c10_record_if_new_fails_open_witness :
    s3_record_if_new (Except.error "connection timeout") ["PROJ-9/7"] "PROJ-1/999" =
      (true, ["PROJ-1/999", "PROJ-9/7"]) :=
  c10_record_if_new_fails_open "connection timeout" ["PROJ-9/7"] "PROJ-1/999"

/-- Witness for C2 (amended): the counterexample payload instantiates the
string-comment clause (an empty comment object comes back). -/
theorem c2_nested_normalizer_amended_witness :
    (extract_comment_and_issue stringCommentPayload).1 = Json.obj [] :=
  (c2_nested_normalizer_amended stringCommentPayload
    [("comment", Json.str "@bot /summary"), ("issue", Json.obj [("issueKey", Json.str "PROJ-1")])]
    rfl).1 rfl

end BacklogBot
